import Mathlib

/-!
Verification of the event-enrichment, angle-classification, priority-scoring,
content-parsing and error-classification logic of the social-content-engine
repository.  Source rows coming from the warehouse are modelled as association
lists of column name to scalar value; Python floats are modelled as exact
rationals; fallible Python code (KeyError / ValueError / TypeError) is modelled
with `Except`.
-/

namespace SCE

/-- A scalar cell value of a warehouse row: Python `None`, a string, a number
(Python int/float modelled as an exact rational) or a boolean. -/
inductive Val where
  | null
  | str (s : String)
  | num (q : ℚ)
  | bool (b : Bool)
deriving DecidableEq, Repr

/-- A row of one of the four source tables: an association list from column
name to value (pandas `Series` keyed by column label). -/
abbrev Row := List (String × Val)

/-- Look a column up in a row; `none` when the column is absent.
Duplicate column labels resolve to the first occurrence. -/
def row_find (r : Row) (k : String) : Option Val :=
  (r.find? (fun p => p.1 == k)).map (fun p => p.2)

/-- pandas `Series.get(key)` with its implicit default `None`: an absent column
yields Python `None`, modelled as `Val.null`. -/
def series_get (r : Row) (k : String) : Val :=
  (row_find r k).getD .null

/-- pandas `Series.__getitem__` (`row[key]`): raises `KeyError` when the column
is absent. -/
def series_index (r : Row) (k : String) : Except String Val :=
  match row_find r k with
  | some v => .ok v
  | none => .error ("KeyError: " ++ k)

/-- Python `str.strip()`: drop whitespace from both ends.  (Python strips a
slightly larger Unicode whitespace set; the difference is immaterial here.) -/
def py_strip (s : String) : String :=
  String.mk (((s.toList.dropWhile Char.isWhitespace).reverse.dropWhile
    Char.isWhitespace).reverse)

/-- Python `str.lower()` (ASCII case mapping; no claim depends on non-ASCII
case folding). -/
def py_lower (s : String) : String :=
  String.mk (s.toList.map Char.toLower)

/-- Splitting a character list at every occurrence of the separator. -/
def split_char_aux (sep : Char) : List Char → List Char → List String
  | [], acc => [String.mk acc.reverse]
  | c :: cs, acc =>
      if c = sep then String.mk acc.reverse :: split_char_aux sep cs []
      else split_char_aux sep cs (c :: acc)

/-- Python `s.split(sep)` for a one-character separator. -/
def py_split (s : String) (sep : Char) : List String :=
  split_char_aux sep s.toList []

/-- Digit characters to a natural number (`['1','2','3']` ↦ `123`). -/
def digits_nat (cs : List Char) : ℕ :=
  cs.foldl (fun n c => n * 10 + (c.toNat - 48)) 0

/-- Unsigned decimal: digits with an optional decimal point. -/
def parse_ufloat (cs : List Char) : Option ℚ :=
  let ip := cs.takeWhile (fun c => c ≠ '.')
  match cs.dropWhile (fun c => c ≠ '.') with
  | [] => if ip ≠ [] ∧ ip.all Char.isDigit then some (digits_nat ip) else none
  | _ :: fp =>
      if (ip ≠ [] ∨ fp ≠ []) ∧ ip.all Char.isDigit ∧ fp.all Char.isDigit then
        some ((digits_nat ip : ℚ) + (digits_nat fp : ℚ) / (10 ^ fp.length))
      else none

/-- Python `float(s)` on a string: optional sign, decimal digits with an
optional decimal point, surrounding whitespace allowed.  Exponent notation
and `inf`/`nan` literals are not modelled; no claim feeds such strings.
Returns `none` where Python raises `ValueError`. -/
def parse_float (s : String) : Option ℚ :=
  match (py_strip s).toList with
  | '-' :: rest => (parse_ufloat rest).map (fun q => -q)
  | '+' :: rest => parse_ufloat rest
  | cs => parse_ufloat cs

/-- Unsigned decimal integer: non-empty digits only. -/
def parse_uint (cs : List Char) : Option ℕ :=
  if cs ≠ [] ∧ cs.all Char.isDigit then some (digits_nat cs) else none

/-- Python `int(s)` on a string: optional sign and decimal digits only
(`int("3.5")` raises).  Returns `none` where Python raises `ValueError`. -/
def parse_int (s : String) : Option ℤ :=
  match (py_strip s).toList with
  | '-' :: rest => (parse_uint rest).map (fun n => -(n : ℤ))
  | '+' :: rest => (parse_uint rest).map (fun n => (n : ℤ))
  | cs => (parse_uint cs).map (fun n => (n : ℤ))

/-- Python `int()` applied to a float: truncation toward zero. -/
def trunc_rat (q : ℚ) : ℤ :=
  if 0 ≤ q then q.floor else -((-q).floor)

/-- Python `float(v)`: `none` where Python raises (`None`, unparsable string). -/
def py_float (v : Val) : Option ℚ :=
  match v with
  | .null => none
  | .num q => some q
  | .bool b => some (if b then 1 else 0)
  | .str s => parse_float s

/-- Python `int(v)`: `none` where Python raises. -/
def py_int (v : Val) : Option ℤ :=
  match v with
  | .null => none
  | .num q => some (trunc_rat q)
  | .bool b => some (if b then 1 else 0)
  | .str s => parse_int s

/-- Python `str(v)`.  `str(None) = "None"`; numeric rendering is abstracted
(Python float formatting is not reproduced; no claim depends on it). -/
def py_str (v : Val) : String :=
  match v with
  | .null => "None"
  | .str s => s
  | .bool b => if b then "True" else "False"
  | .num q => toString q

/-- Python truthiness of a cell value (`bool(v)`). -/
def py_truthy (v : Val) : Bool :=
  match v with
  | .null => false
  | .str s => s ≠ ""
  | .num q => q ≠ 0
  | .bool b => b

/-- Python `v == "lit"` for a cell value against a string literal. -/
def val_eq_str (v : Val) (lit : String) : Bool :=
  match v with
  | .str s => s == lit
  | _ => false

/-- Does `pat` occur as a contiguous substring of the character list `l`
(Python `pat in s`)? -/
def contains_sub : List Char → List Char → Bool
  | [], p => p.isPrefixOf ([] : List Char)
  | l@(_ :: t), p => p.isPrefixOf l || contains_sub t p

/-- Python substring test `pat in s`. -/
def str_contains (s pat : String) : Bool :=
  contains_sub s.toList pat.toList

/-!
## Angle classification and priority scoring

`BatchProcessor._identify_content_angles`, `SocialContentPipeline.identify_content_angles`
(src/batch_processor.py, src/social_content_generator.py) and
`BatchProcessor._calculate_content_priority` read a handful of entries of the
event dictionary through chains of `dict.get` with defaults
(`event.get('career_context', {}).get('vs_career_avg_multiple', 0)` and the
like).  `EventInfo` models exactly those access paths: each field is `none`
when the context group or the key is missing, mirroring the collapsed
two-level `get`. -/
structure EventInfo where
  rank : Option ℤ := none
  internationalPct : Option ℚ := none
  careerMultiple : Option ℚ := none
  genreRank : Option ℤ := none
  priceAppreciationPct : Option ℚ := none
  tourMultiple : Option ℚ := none
  tourName : Option Val := none
  completenessScore : Option ℚ := none
deriving DecidableEq, Repr

/-- `BatchProcessor._identify_content_angles` (src/batch_processor.py 128–174):
appends at most one label per category, highest threshold first, with a
rank-based fallback when nothing matched. -/
def identify_content_angles (event : EventInfo) : List String :=
  let angles : List String := []
  let career_multiple := event.careerMultiple.getD 0
  let angles :=
    if career_multiple ≥ 5 then angles ++ ["major_spike"]
    else if career_multiple ≥ 3 then angles ++ ["significant_spike"]
    else if career_multiple ≥ 2 then angles ++ ["notable_performance"]
    else angles
  let intl_pct := event.internationalPct.getD 0
  let angles :=
    if intl_pct > 40 then angles ++ ["international_phenomenon"]
    else if intl_pct > 25 then angles ++ ["international_appeal"]
    else angles
  let genre_rank := event.genreRank.getD 999
  let angles :=
    if genre_rank ≤ 3 then angles ++ ["genre_leader"]
    else if genre_rank ≤ 10 then angles ++ ["top_performer"]
    else angles
  let price_appreciation := event.priceAppreciationPct.getD 0
  let angles :=
    if price_appreciation > 30 then angles ++ ["pricing_surge"]
    else if price_appreciation > 15 then angles ++ ["demand_indicator"]
    else angles
  let tour_multiple := event.tourMultiple.getD 0
  let angles :=
    if tour_multiple > 1.5 ∧ py_truthy (event.tourName.getD .null) then
      angles ++ ["tour_standout"]
    else angles
  if angles = [] then
    if event.rank.getD 10 ≤ 5 then ["top_performance"] else ["trending_event"]
  else angles

/-- `SocialContentPipeline.identify_content_angles`
(src/social_content_generator.py 272–318): same rule table, tour gate written
as a nested `if`, and the final list truncated to the first three labels
(`return angles[:3]`). -/
def identify_content_angles_gen (event : EventInfo) : List String :=
  let angles : List String := []
  let career_multiple := event.careerMultiple.getD 0
  let angles :=
    if career_multiple ≥ 5 then angles ++ ["major_spike"]
    else if career_multiple ≥ 3 then angles ++ ["significant_spike"]
    else if career_multiple ≥ 2 then angles ++ ["notable_performance"]
    else angles
  let angles :=
    if event.internationalPct.getD 0 > 40 then angles ++ ["international_phenomenon"]
    else if event.internationalPct.getD 0 > 25 then angles ++ ["international_appeal"]
    else angles
  let genre_rank := event.genreRank.getD 999
  let angles :=
    if genre_rank ≤ 3 then angles ++ ["genre_leader"]
    else if genre_rank ≤ 10 then angles ++ ["top_performer"]
    else angles
  let price_appreciation := event.priceAppreciationPct.getD 0
  let angles :=
    if price_appreciation > 30 then angles ++ ["pricing_surge"]
    else if price_appreciation > 15 then angles ++ ["demand_indicator"]
    else angles
  let angles :=
    if py_truthy (event.tourName.getD .null) then
      let tour_multiple := event.tourMultiple.getD 0
      if tour_multiple > 1.5 then angles ++ ["tour_standout"] else angles
    else angles
  let angles :=
    if angles = [] then
      if event.rank.getD 10 ≤ 5 then ["top_performance"] else ["trending_event"]
    else angles
  angles.take 3

/-- The four angle labels granted the +2 priority bonus
(`high_impact_angles` in src/batch_processor.py 190). -/
def high_impact_angles : List String :=
  ["major_spike", "international_phenomenon", "genre_leader", "pricing_surge"]

/-- `BatchProcessor._calculate_content_priority` (src/batch_processor.py
176–206): base 5, additive bonuses, capped at 10. -/
def calculate_content_priority (event : EventInfo) (angle : String) : ℤ :=
  let priority : ℤ := 5
  let rank := event.rank.getD 10
  let priority := priority +
    (if rank ≤ 3 then 3 else if rank ≤ 5 then 2 else if rank ≤ 10 then 1 else 0)
  let priority := priority + (if angle ∈ high_impact_angles then 2 else 0)
  let data_score := event.completenessScore.getD 0
  let priority := priority + (if data_score ≥ 0.8 then 1 else 0)
  let career_multiple := event.careerMultiple.getD 1
  let priority := priority +
    (if career_multiple ≥ 5 then 2 else if career_multiple ≥ 3 then 1 else 0)
  min priority 10

/-- A generated content item as consulted by the dashboard scorer
(`data_quality_score` and `content_angle` keys, each possibly missing). -/
structure ContentItem where
  dataQualityScore : Option ℚ := none
  contentAngle : Option String := none
deriving DecidableEq, Repr

/-- The dashboard's per-angle scores (`angle_scores` in
src/streamlit_app.py 2427–2440). -/
def angle_scores : List (String × ℤ) :=
  [("major_spike", 5), ("significant_spike", 4), ("genre_leader", 4),
   ("international_phenomenon", 4), ("tour_standout", 3), ("top_performer", 3),
   ("international_appeal", 2), ("pricing_surge", 2), ("notable_performance", 2),
   ("demand_indicator", 1), ("top_performance", 1), ("trending_event", 1)]

/-- `StreamlitApp.calculate_priority_score` (src/streamlit_app.py 2424–2446):
`min(10, int(data_quality_score * 5 + angle_score))`. -/
def calculate_priority_score (item : ContentItem) : ℤ :=
  let base_score : ℚ := item.dataQualityScore.getD 0 * 5
  let angle := item.contentAngle.getD "trending_event"
  let angle_score : ℤ :=
    ((angle_scores.find? (fun p => p.1 == angle)).map (fun p => p.2)).getD 1
  min 10 (trunc_rat (base_score + (angle_score : ℚ)))

/-- The `data_completeness` group of an enriched event. -/
structure Completeness where
  hasHistoricalContext : Bool
  hasTrendAnalysis : Bool
  hasMarketPositioning : Bool
  completenessScore : ℚ
deriving DecidableEq, Repr

/-- `SocialContentPipeline._assess_data_completeness`
(src/social_content_generator.py 259–270); `DataProcessor._build_event_object`
computes the identical expression inline (src/data_processing.py 320–330). -/
def assess_data_completeness (hist_row trend_row market_row : Option Row) : Completeness :=
  { hasHistoricalContext := hist_row.isSome
    hasTrendAnalysis := trend_row.isSome
    hasMarketPositioning := market_row.isSome
    completenessScore :=
      (((if hist_row.isSome then 1 else 0) + (if trend_row.isSome then 1 else 0) +
        (if market_row.isSome then 1 else 0) : ℚ)) / 3 }

/-!
## Field extraction, generator pipeline (src/social_content_generator.py)
-/

/-- `SocialContentPipeline._safe_float` (lines 145–150). -/
def safe_float (v : Val) (default : ℚ) : ℚ := (py_float v).getD default

/-- `SocialContentPipeline._safe_int` (lines 152–157). -/
def safe_int (v : Val) (default : ℤ) : ℤ := (py_int v).getD default

/-- The `str(row.get(K, '')) if row.get(K) else None` pattern used for tour
name and tier labels (lines 180, 193, 252–253). -/
def str_if_truthy (r : Row) (k : String) : Option String :=
  if py_truthy (series_get r k) then some (py_str ((row_find r k).getD (.str "")))
  else none

structure CareerCtx where
  vsCareerAvgMultiple : ℚ
  vsCareerBestRatio : ℚ
  careerTotalEvents : ℤ
  careerFirstYear : ℤ
  careerLastYear : ℤ
  careerTotalGms : ℚ
  careerBestEventGms : ℚ
deriving DecidableEq, Repr

structure TourCtx where
  tourName : Option String
  vsTourAvgMultiple : ℚ
  tourTotalEvents : ℤ
  tourTotalGms : ℚ
deriving DecidableEq, Repr

structure GenreCtx where
  vsGenreAvgMultiple : ℚ
  genrePercentileBucket : Option String
  vsYtdAvgMultiple : ℚ
deriving DecidableEq, Repr

structure TrendIns where
  gmsMultiple : ℚ
  isGmsSpike : Bool
  performanceCategory : String
  priceAppreciationPct : ℚ
deriving DecidableEq, Repr

structure GeoCountry where
  country : String
  percentage : ℚ
deriving DecidableEq, Repr

structure GeoIns where
  topBuyerCountries : List GeoCountry
  uniqueBuyerCountries : ℤ
  internationalAppealScore : ℤ
deriving DecidableEq, Repr

structure PricingIns where
  lifetimeAvgCost : ℚ
  minTicketCost : ℚ
  maxTicketCost : ℚ
  recent7dAvgCost : ℚ
  prior23dAvgCost : ℚ
deriving DecidableEq, Repr

structure MarketPos where
  ytdOverallRank : ℤ
  ytdGenreRank : ℤ
  ytdOverallTier : Option String
  ytdGenreTier : Option String
  last7dMarketSharePct : ℚ
  ytdMarketSharePct : ℚ
  premiumMultiple : ℚ
deriving DecidableEq, Repr

/-- `_extract_career_context` (lines 159–172): `{}` when the row is absent. -/
def extract_career_context (hist_row : Option Row) : Option CareerCtx :=
  hist_row.map fun r =>
    { vsCareerAvgMultiple := safe_float (series_get r "VS_CAREER_AVG_MULTIPLE") 0
      vsCareerBestRatio := safe_float (series_get r "VS_CAREER_BEST_RATIO") 0
      careerTotalEvents := safe_int (series_get r "CAREER_TOTAL_EVENTS") 0
      careerFirstYear := safe_int (series_get r "CAREER_FIRST_YEAR") 0
      careerLastYear := safe_int (series_get r "CAREER_LAST_YEAR") 0
      careerTotalGms := safe_float (series_get r "CAREER_TOTAL_GMS") 0
      careerBestEventGms := safe_float (series_get r "CAREER_BEST_EVENT_GMS") 0 }

/-- `_extract_tour_context` (lines 174–184). -/
def extract_tour_context (hist_row : Option Row) : Option TourCtx :=
  hist_row.map fun r =>
    { tourName := str_if_truthy r "TOUR_NAME"
      vsTourAvgMultiple := safe_float (series_get r "VS_TOUR_AVG_MULTIPLE") 0
      tourTotalEvents := safe_int (series_get r "TOUR_TOTAL_EVENTS") 0
      tourTotalGms := safe_float (series_get r "TOUR_TOTAL_GMS") 0 }

/-- `_extract_genre_context` (lines 186–195). -/
def extract_genre_context (hist_row : Option Row) : Option GenreCtx :=
  hist_row.map fun r =>
    { vsGenreAvgMultiple := safe_float (series_get r "VS_GENRE_AVG_MULTIPLE") 0
      genrePercentileBucket := str_if_truthy r "GENRE_PERCENTILE_BUCKET"
      vsYtdAvgMultiple := safe_float (series_get r "VS_YTD_AVG_MULTIPLE") 0 }

/-- `_extract_trend_insights` (lines 197–207). -/
def extract_trend_insights (trend_row : Option Row) : Option TrendIns :=
  trend_row.map fun r =>
    { gmsMultiple := safe_float (series_get r "GMS_MULTIPLE") 0
      isGmsSpike := py_truthy ((row_find r "IS_GMS_SPIKE").getD (.bool false))
      performanceCategory := py_str ((row_find r "PERFORMANCE_CATEGORY").getD (.str "Normal"))
      priceAppreciationPct := safe_float ((row_find r "PRICE_APPRECIATION_PCT").getD (.num 0)) 0 * 100 }

/-- `_extract_geographic_insights` (lines 209–229): a slot is kept only when
the country is truthy and the percentage is not `None`. -/
def extract_geographic_insights (trend_row : Option Row) : Option GeoIns :=
  trend_row.map fun r =>
    let top_countries := (["1", "2", "3"] : List String).filterMap fun i =>
      let country := series_get r ("TOP_BUYER_COUNTRY_" ++ i)
      let pct := series_get r ("TOP_BUYER_COUNTRY_" ++ i ++ "_PCT")
      if py_truthy country = true ∧ pct ≠ .null then
        some { country := py_str country, percentage := safe_float pct 0 * 100 }
      else none
    { topBuyerCountries := top_countries
      uniqueBuyerCountries := safe_int (series_get r "UNIQUE_BUYER_COUNTRIES") 0
      internationalAppealScore := (top_countries.length : ℤ) }

/-- `_extract_pricing_insights` (lines 231–242). -/
def extract_pricing_insights (trend_row : Option Row) : Option PricingIns :=
  trend_row.map fun r =>
    { lifetimeAvgCost := safe_float (series_get r "LIFETIME_AVG_TICKET_COST") 0
      minTicketCost := safe_float (series_get r "MIN_TICKET_COST") 0
      maxTicketCost := safe_float (series_get r "MAX_TICKET_COST") 0
      recent7dAvgCost := safe_float (series_get r "RECENT_7D_AVG_COST") 0
      prior23dAvgCost := safe_float (series_get r "PRIOR_23D_AVG_COST") 0 }

/-- `_extract_market_position` (lines 244–257): both market-share percentages
are multiplied by 100. -/
def extract_market_position (market_row : Option Row) : Option MarketPos :=
  market_row.map fun r =>
    { ytdOverallRank := safe_int (series_get r "YTD_OVERALL_RANK") 0
      ytdGenreRank := safe_int (series_get r "YTD_GENRE_RANK") 0
      ytdOverallTier := str_if_truthy r "YTD_OVERALL_TIER"
      ytdGenreTier := str_if_truthy r "YTD_GENRE_TIER"
      last7dMarketSharePct := safe_float ((row_find r "LAST_7D_MARKET_SHARE_PCT").getD (.num 0)) 0 * 100
      ytdMarketSharePct := safe_float ((row_find r "YTD_MARKET_SHARE_PCT").getD (.num 0)) 0 * 100
      premiumMultiple := safe_float (series_get r "PREMIUM_MULTIPLE") 0 }

/-- The `'classified_artist_name'` entry built in `structure_event_data`
(line 98): the classified column whenever present (no null/empty filtering),
else the category column, else `"Unknown"`. -/
def gen_classified_artist_name (base_row : Row) : String :=
  py_str ((row_find base_row "CLASSIFIED_ARTIST_NAME").getD
    ((row_find base_row "EVENT_CATEGORY_NAME").getD (.str "Unknown")))

/-- An enriched event produced by `SocialContentPipeline.structure_event_data`.
The wall-clock `data_timestamp` field is not modelled. -/
structure GenEvent where
  eventId : String
  eventName : String
  artistName : String
  classifiedArtistName : String
  genre : String
  subgenre : String
  venueCity : String
  venueCountry : String
  eventDate : String
  rank : ℤ
  totalGms : ℚ
  recent7dGms : ℚ
  totalTickets : ℤ
  avgTicketCost : ℚ
  gmsPerTicket : ℚ
  internationalPct : ℚ
  salesWindowDays : ℤ
  careerContext : Option CareerCtx
  tourContext : Option TourCtx
  genreContext : Option GenreCtx
  trendInsights : Option TrendIns
  geographicInsights : Option GeoIns
  pricingInsights : Option PricingIns
  marketPosition : Option MarketPos
  dataCompleteness : Completeness
deriving DecidableEq, Repr

/-- One iteration of the row loop of `structure_event_data` (lines 84–133),
with the three side rows already matched.  Direct column indexing on the base
row raises `KeyError` for a missing column, and `int(...)` on the rank value
raises when it is not coercible; both are modelled as `Except.error`. -/
def structure_event_row (base_row : Row) (hist_row trend_row market_row : Option Row) :
    Except String GenEvent :=
  match row_find base_row "EVENT_ID" with
  | none => .error "KeyError: EVENT_ID"
  | some event_id =>
  match row_find base_row "EVENT_NAME" with
  | none => .error "KeyError: EVENT_NAME"
  | some event_name =>
  match row_find base_row "EVENT_PARENT_CATEGORY_NAME" with
  | none => .error "KeyError: EVENT_PARENT_CATEGORY_NAME"
  | some genre_v =>
  match row_find base_row "VENUE_CITY" with
  | none => .error "KeyError: VENUE_CITY"
  | some city_v =>
  match row_find base_row "VENUE_COUNTRY_NAME" with
  | none => .error "KeyError: VENUE_COUNTRY_NAME"
  | some country_v =>
  match row_find base_row "EVENT_DATE" with
  | none => .error "KeyError: EVENT_DATE"
  | some date_v =>
  match row_find base_row "RECENT_GMS_RANK" with
  | none => .error "KeyError: RECENT_GMS_RANK"
  | some rank_v =>
  match py_int rank_v with
  | none => .error "TypeError: int() argument invalid for RECENT_GMS_RANK"
  | some rank_i =>
  match row_find base_row "TOTAL_GMS" with
  | none => .error "KeyError: TOTAL_GMS"
  | some total_gms_v =>
  match row_find base_row "RECENT_7D_GMS" with
  | none => .error "KeyError: RECENT_7D_GMS"
  | some recent_v =>
  match row_find base_row "TOTAL_TICKETS_SOLD" with
  | none => .error "KeyError: TOTAL_TICKETS_SOLD"
  | some tickets_v =>
  match row_find base_row "AVG_TICKET_COST" with
  | none => .error "KeyError: AVG_TICKET_COST"
  | some avg_cost_v =>
  match row_find base_row "GMS_PER_TICKET" with
  | none => .error "KeyError: GMS_PER_TICKET"
  | some gpt_v =>
  match row_find base_row "INTERNATIONAL_GMS_PCT" with
  | none => .error "KeyError: INTERNATIONAL_GMS_PCT"
  | some intl_v =>
  .ok
    { eventId := py_str event_id
      eventName := py_str event_name
      artistName := py_str ((row_find base_row "EVENT_CATEGORY_NAME").getD (.str "Unknown"))
      classifiedArtistName := gen_classified_artist_name base_row
      genre := py_str genre_v
      subgenre := py_str ((row_find base_row "SUBGENRE").getD (.str ""))
      venueCity := py_str city_v
      venueCountry := py_str country_v
      eventDate := py_str date_v
      rank := rank_i
      totalGms := safe_float total_gms_v 0
      recent7dGms := safe_float recent_v 0
      totalTickets := safe_int tickets_v 0
      avgTicketCost := safe_float avg_cost_v 0
      gmsPerTicket := safe_float gpt_v 0
      internationalPct := safe_float intl_v 0 * 100
      salesWindowDays := safe_int ((row_find base_row "TOTAL_SALES_WINDOW_DAYS").getD (.num 0)) 0
      careerContext := extract_career_context hist_row
      tourContext := extract_tour_context hist_row
      genreContext := extract_genre_context hist_row
      trendInsights := extract_trend_insights trend_row
      geographicInsights := extract_geographic_insights trend_row
      pricingInsights := extract_pricing_insights trend_row
      marketPosition := extract_market_position market_row
      dataCompleteness := assess_data_completeness hist_row trend_row market_row }

/-- `_get_matching_row` / `_find_matching_row`: `None` on an empty table, else
the first row whose `EVENT_ID` equals the key (`matching.iloc[0]`). -/
def get_matching_row (df : List Row) (event_id : Val) : Option Row :=
  if df.isEmpty then none
  else df.find? (fun r => row_find r "EVENT_ID" == some event_id)

/-- The row loop of `structure_event_data`: no per-row exception handling, so
the first failing row aborts the whole call. -/
def structure_loop (bs hist_df trend_df market_df : List Row) : Except String (List GenEvent) :=
  match bs with
  | [] => .ok []
  | base_row :: rest =>
    match row_find base_row "EVENT_ID" with
    | none => .error "KeyError: EVENT_ID"
    | some event_id =>
      match structure_event_row base_row (get_matching_row hist_df event_id)
          (get_matching_row trend_df event_id) (get_matching_row market_df event_id) with
      | .error e => .error e
      | .ok ev =>
        match structure_loop rest hist_df trend_df market_df with
        | .error e => .error e
        | .ok evs => .ok (ev :: evs)

/-- `SocialContentPipeline.structure_event_data` (lines 69–136). -/
def structure_event_data (base_df hist_df trend_df market_df : List Row) :
    Except String (List GenEvent) :=
  if base_df.isEmpty then .ok []
  else structure_loop base_df hist_df trend_df market_df

/-!
## Field extraction, DataProcessor pipeline (src/data_processing.py)
-/

/-- `safe_get(row, column, default, convert_func=float)` of
`DataProcessor._build_event_object` (lines 221–233): absent row, absent
column and an explicit `None` value all yield the default; a value the
conversion rejects also yields the default instead of raising. -/
def safe_get_float (row : Option Row) (column : String) (default : ℚ) : ℚ :=
  match row with
  | none => default
  | some r =>
    match row_find r column with
    | none => default
    | some .null => default
    | some v => (py_float v).getD default

/-- `safe_get` with `convert_func=int`. -/
def safe_get_int (row : Option Row) (column : String) (default : ℤ) : ℤ :=
  match row with
  | none => default
  | some r =>
    match row_find r column with
    | none => default
    | some .null => default
    | some v => (py_int v).getD default

/-- `safe_get` with `convert_func=bool` (`bool(...)` never raises). -/
def safe_get_bool (row : Option Row) (column : String) (default : Bool) : Bool :=
  match row with
  | none => default
  | some r =>
    match row_find r column with
    | none => default
    | some .null => default
    | some v => py_truthy v

/-- `safe_get` without a conversion function: returns the raw value. -/
def safe_get_raw (row : Option Row) (column : String) (default : Val) : Val :=
  match row with
  | none => default
  | some r =>
    match row_find r column with
    | none => default
    | some .null => default
    | some v => v

/-- `get_artist_name` inside `DataProcessor._build_event_object`
(src/data_processing.py 236–243): falls back to the category column when the
classified value is `None`, the literal string `"None"`, or trims to empty —
note there is no check for the literal string `"nan"`. -/
def get_artist_name (base_row : Row) : String :=
  let classified := series_get base_row "CLASSIFIED_ARTIST_NAME"
  let category := (row_find base_row "EVENT_CATEGORY_NAME").getD (.str "Unknown")
  if classified = .null ∨ val_eq_str classified "None" = true ∨ py_strip (py_str classified) = "" then
    py_str category
  else py_str classified

structure DPCareer where
  vsCareerAvgMultiple : ℚ
  vsCareerBestRatio : ℚ
  careerTotalEvents : ℤ
  careerFirstYear : ℤ
  careerTotalGms : ℚ
deriving DecidableEq, Repr

structure DPTour where
  tourName : Val
  vsTourAvgMultiple : ℚ
  tourTotalEvents : ℤ
  tourTotalGms : ℚ
deriving DecidableEq, Repr

structure DPGenre where
  vsGenreAvgMultiple : ℚ
  genrePercentileBucket : Val
  vsYtdAvgMultiple : ℚ
deriving DecidableEq, Repr

structure DPTrend where
  gmsMultiple : ℚ
  isGmsSpike : Bool
  performanceCategory : Val
  priceAppreciationPct : ℚ
deriving DecidableEq, Repr

structure DPGeoCountry where
  country : Val
  percentage : ℚ
deriving DecidableEq, Repr

structure DPMarket where
  ytdOverallRank : ℤ
  ytdGenreRank : ℤ
  ytdOverallTier : Val
  ytdGenreTier : Val
  last7dMarketSharePct : ℚ
  premiumMultiple : ℚ
deriving DecidableEq, Repr

/-- An enriched event produced by `DataProcessor._build_event_object`
(src/data_processing.py 216–331).  Unlike the generator pipeline, the context
groups are always present with per-field defaults, and there is no
year-to-date market-share field. -/
structure DPEvent where
  eventId : String
  eventName : String
  artistName : String
  classifiedArtistName : String
  genre : String
  subgenre : String
  venueCity : String
  venueCountry : String
  eventDate : String
  rank : ℤ
  totalGms : ℚ
  recent7dGms : ℚ
  totalTickets : ℤ
  avgTicketCost : ℚ
  gmsPerTicket : ℚ
  internationalPct : ℚ
  careerContext : DPCareer
  tourContext : DPTour
  genreContext : DPGenre
  trendInsights : DPTrend
  topBuyerCountries : List DPGeoCountry
  marketPosition : DPMarket
  dataCompleteness : Completeness
deriving DecidableEq, Repr

/-- `DataProcessor._build_event_object` (src/data_processing.py 216–331).
Direct column indexing raises `KeyError` for a missing mandatory column and
`int(base_row['RECENT_GMS_RANK'])` raises on a non-coercible value; every
other field goes through `safe_get`. -/
def build_event_object (base_row : Row) (hist_row trend_row market_row : Option Row) :
    Except String DPEvent :=
  match row_find base_row "EVENT_ID" with
  | none => .error "KeyError: EVENT_ID"
  | some event_id =>
  match row_find base_row "EVENT_NAME" with
  | none => .error "KeyError: EVENT_NAME"
  | some event_name =>
  match row_find base_row "EVENT_PARENT_CATEGORY_NAME" with
  | none => .error "KeyError: EVENT_PARENT_CATEGORY_NAME"
  | some genre_v =>
  match row_find base_row "VENUE_CITY" with
  | none => .error "KeyError: VENUE_CITY"
  | some city_v =>
  match row_find base_row "VENUE_COUNTRY_NAME" with
  | none => .error "KeyError: VENUE_COUNTRY_NAME"
  | some country_v =>
  match row_find base_row "EVENT_DATE" with
  | none => .error "KeyError: EVENT_DATE"
  | some date_v =>
  match row_find base_row "RECENT_GMS_RANK" with
  | none => .error "KeyError: RECENT_GMS_RANK"
  | some rank_v =>
  match py_int rank_v with
  | none => .error "TypeError: int() argument invalid for RECENT_GMS_RANK"
  | some rank_i =>
  let base := some base_row
  .ok
    { eventId := py_str event_id
      eventName := py_str event_name
      artistName := py_str ((row_find base_row "EVENT_CATEGORY_NAME").getD (.str "Unknown"))
      classifiedArtistName := get_artist_name base_row
      genre := py_str genre_v
      subgenre := py_str ((row_find base_row "SUBGENRE").getD (.str ""))
      venueCity := py_str city_v
      venueCountry := py_str country_v
      eventDate := py_str date_v
      rank := rank_i
      totalGms := safe_get_float base "TOTAL_GMS" 0
      recent7dGms := safe_get_float base "RECENT_7D_GMS" 0
      totalTickets := safe_get_int base "TOTAL_TICKETS_SOLD" 0
      avgTicketCost := safe_get_float base "AVG_TICKET_COST" 0
      gmsPerTicket := safe_get_float base "GMS_PER_TICKET" 0
      internationalPct := safe_get_float base "INTERNATIONAL_GMS_PCT" 0 * 100
      careerContext :=
        { vsCareerAvgMultiple := safe_get_float hist_row "VS_CAREER_AVG_MULTIPLE" 1
          vsCareerBestRatio := safe_get_float hist_row "VS_CAREER_BEST_RATIO" 0
          careerTotalEvents := safe_get_int hist_row "CAREER_TOTAL_EVENTS" 0
          careerFirstYear := safe_get_int hist_row "CAREER_FIRST_YEAR" 0
          careerTotalGms := safe_get_float hist_row "CAREER_TOTAL_GMS" 0 }
      tourContext :=
        { tourName := safe_get_raw hist_row "TOUR_NAME" (.str "")
          vsTourAvgMultiple := safe_get_float hist_row "VS_TOUR_AVG_MULTIPLE" 1
          tourTotalEvents := safe_get_int hist_row "TOUR_TOTAL_EVENTS" 0
          tourTotalGms := safe_get_float hist_row "TOUR_TOTAL_GMS" 0 }
      genreContext :=
        { vsGenreAvgMultiple := safe_get_float hist_row "VS_GENRE_AVG_MULTIPLE" 1
          genrePercentileBucket := safe_get_raw hist_row "GENRE_PERCENTILE_BUCKET" (.str "Unknown")
          vsYtdAvgMultiple := safe_get_float hist_row "VS_YTD_AVG_MULTIPLE" 1 }
      trendInsights :=
        { gmsMultiple := safe_get_float trend_row "GMS_MULTIPLE" 1
          isGmsSpike := safe_get_bool trend_row "IS_GMS_SPIKE" false
          performanceCategory := safe_get_raw trend_row "PERFORMANCE_CATEGORY" (.str "Normal")
          priceAppreciationPct := safe_get_float trend_row "PRICE_APPRECIATION_PCT" 0 * 100 }
      topBuyerCountries :=
        (["1", "2", "3"] : List String).filterMap fun i =>
          if py_truthy (safe_get_raw trend_row ("TOP_BUYER_COUNTRY_" ++ i) .null) then
            some { country := safe_get_raw trend_row ("TOP_BUYER_COUNTRY_" ++ i) (.str "")
                   percentage :=
                     safe_get_float trend_row ("TOP_BUYER_COUNTRY_" ++ i ++ "_PCT") 0 * 100 }
          else none
      marketPosition :=
        { ytdOverallRank := safe_get_int market_row "YTD_OVERALL_RANK" 999
          ytdGenreRank := safe_get_int market_row "YTD_GENRE_RANK" 999
          ytdOverallTier := safe_get_raw market_row "YTD_OVERALL_TIER" (.str "Unknown")
          ytdGenreTier := safe_get_raw market_row "YTD_GENRE_TIER" (.str "Unknown")
          last7dMarketSharePct := safe_get_float market_row "LAST_7D_MARKET_SHARE_PCT" 0 * 100
          premiumMultiple := safe_get_float market_row "PREMIUM_MULTIPLE" 1 }
      dataCompleteness := assess_data_completeness hist_row trend_row market_row }

/-- The row loop of `DataProcessor.process_event_data`
(src/data_processing.py 194–204): no per-row exception handling. -/
def process_loop (bs hist_df trend_df market_df : List Row) : Except String (List DPEvent) :=
  match bs with
  | [] => .ok []
  | base_row :: rest =>
    match row_find base_row "EVENT_ID" with
    | none => .error "KeyError: EVENT_ID"
    | some event_id =>
      match build_event_object base_row (get_matching_row hist_df event_id)
          (get_matching_row trend_df event_id) (get_matching_row market_df event_id) with
      | .error e => .error e
      | .ok ev =>
        match process_loop rest hist_df trend_df market_df with
        | .error e => .error e
        | .ok evs => .ok (ev :: evs)

/-- Python `not raw_data.get('base_events')`: `not None` evaluates to `True`,
but `not df` applies `bool()` to a DataFrame, and pandas
`NDFrame.__bool__` raises unconditionally
(`ValueError: The truth value of a DataFrame is ambiguous ...`). -/
def py_not_df (df : Option (List Row)) : Except String Bool :=
  match df with
  | none => .ok true
  | some _ =>
      .error "ValueError: The truth value of a DataFrame is ambiguous. Use a.empty, a.bool(), a.item(), a.any() or a.all()."

/-- `DataProcessor.process_event_data` (src/data_processing.py 181–206).
`raw` maps view names to the optional tables of the `raw_data` dict.  The
guard `if not raw_data.get('base_events') or raw_data['base_events'].empty`
applies `not` to a DataFrame, which raises `ValueError` whenever the
`base_events` key is present; the (faithfully transcribed) code below the
guard is therefore unreachable for dict inputs that carry a base table. -/
def process_event_data (raw : String → Option (List Row)) : Except String (List DPEvent) :=
  match py_not_df (raw "base_events") with
  | .error e => .error e
  | .ok b =>
    if b then .ok []
    else
      match raw "base_events" with
      | none => .error "KeyError: base_events"
      | some base_df =>
        if base_df.isEmpty then .ok []
        else
          process_loop base_df ((raw "historical_context").getD [])
            ((raw "trend_analysis").getD []) ((raw "market_rankings").getD [])

/-!
## Response parsing and error classification (src/ai_contextualizer.py)
-/

/-- The visual-text section header phrases (src/ai_contextualizer.py 217). -/
def visual_headers : List String := ["visual text:", "on-screen text:", "asset text:"]

/-- The caption section header phrases (src/ai_contextualizer.py 220). -/
def caption_headers : List String := ["caption:", "description:", "post caption:"]

/-- `any(header in line.lower() for header in [...])` on the visual headers. -/
def is_visual_header (line : String) : Bool :=
  visual_headers.any (fun h => str_contains (py_lower line) h)

/-- Same test for the caption headers. -/
def is_caption_header (line : String) : Bool :=
  caption_headers.any (fun h => str_contains (py_lower line) h)

/-- The `current_section` variable of `_parse_dual_content`: `none` until a
header has been seen. -/
inductive ParseSection where
  | none
  | visual
  | caption
deriving DecidableEq, Repr

/-- The line loop of `_parse_dual_content` (src/ai_contextualizer.py 211–234),
carrying the current section and the two accumulated strings; both are
trimmed on return (line 236–239). -/
def parse_dual_lines : List String → ParseSection → String → String → String × String
  | [], _, visual_text, caption => (py_strip visual_text, py_strip caption)
  | l :: ls, sec, visual_text, caption =>
    let line := py_strip l
    if line = "" then parse_dual_lines ls sec visual_text caption
    else if is_visual_header line then parse_dual_lines ls .visual visual_text caption
    else if is_caption_header line then parse_dual_lines ls .caption visual_text caption
    else
      match sec with
      | .visual => parse_dual_lines ls .visual (visual_text ++ line ++ " ") caption
      | .caption => parse_dual_lines ls .caption visual_text (caption ++ line ++ " ")
      | .none =>
        if visual_text = "" ∧ line.length < 100 then
          parse_dual_lines ls .none line caption
        else parse_dual_lines ls .none visual_text (caption ++ line ++ " ")

/-- The result dict of `create_social_post` / `_parse_dual_content`.  The
success dict carries no `'error'` key, which reads as falsy downstream; it is
modelled as `error = false`. -/
structure PostResult where
  visualText : String
  caption : String
  platform : String
  error : Bool
deriving DecidableEq, Repr

/-- `ContentGenerator._parse_dual_content` (src/ai_contextualizer.py 203–240). -/
def parse_dual_content (content : String) (platform : String) : PostResult :=
  let lines := py_split (py_strip content) '\n'
  let vc := parse_dual_lines lines .none "" ""
  { visualText := vc.1, caption := vc.2, platform := platform, error := false }

/-- `ContentGenerator.create_social_post` (src/ai_contextualizer.py 130–201).
The external chat-completion call is abstracted by its outcome: `.ok` with
the response text, or `.error` carrying `str(e)` of the raised exception.
The `except` arm classifies the lowercased error text by ordered substring
tests and returns an error-flagged result instead of re-raising. -/
def create_social_post (model platform : String) (call_result : Except String String) :
    PostResult :=
  match call_result with
  | .ok response => parse_dual_content (py_strip response) platform
  | .error error_msg =>
    let e := py_lower error_msg
    let user_msg :=
      if str_contains e "rate_limit" then
        "Rate limit exceeded. Please wait a moment and try again."
      else if str_contains e "invalid_api_key" || str_contains e "unauthorized" then
        "Invalid API key. Please check your OpenAI API key in Snowflake secrets."
      else if str_contains e "model" && str_contains e "does not exist" then
        "Model \x27" ++ model ++ "\x27 not available. Check your OpenAI plan or use a different model."
      else if str_contains e "connection" || str_contains e "network" then
        "Network connection error. Snowflake may be blocking external API calls."
      else if str_contains e "timeout" then
        "Request timeout. This may indicate network restrictions."
      else if str_contains e "billing" || str_contains e "quota" then
        "Billing or quota issue. Check your OpenAI account status."
      else "OpenAI API error: " ++ error_msg
    { visualText := "❌ " ++ user_msg
      caption := "❌ " ++ user_msg
      platform := platform
      error := true }

/-- The spec's fixed cause set for text-generation failures
(§7 taxonomy item 4). -/
inductive FailureCause where
  | rateLimit
  | invalidKey
  | modelUnavailable
  | network
  | timeout
  | billing
  | unknown (original : String)
deriving DecidableEq, Repr

/-- Spec-side classification: ordered substring inspection of the lowercased
error text against the fixed cause set, with `unknown` as fallback. -/
def classify_failure (error_msg : String) : FailureCause :=
  let e := py_lower error_msg
  if str_contains e "rate_limit" then .rateLimit
  else if str_contains e "invalid_api_key" || str_contains e "unauthorized" then .invalidKey
  else if str_contains e "model" && str_contains e "does not exist" then .modelUnavailable
  else if str_contains e "connection" || str_contains e "network" then .network
  else if str_contains e "timeout" then .timeout
  else if str_contains e "billing" || str_contains e "quota" then .billing
  else .unknown error_msg

/-- Spec-side fixed user-facing message per cause. -/
def failure_message (model : String) : FailureCause → String
  | .rateLimit => "Rate limit exceeded. Please wait a moment and try again."
  | .invalidKey => "Invalid API key. Please check your OpenAI API key in Snowflake secrets."
  | .modelUnavailable =>
      "Model \x27" ++ model ++ "\x27 not available. Check your OpenAI plan or use a different model."
  | .network => "Network connection error. Snowflake may be blocking external API calls."
  | .timeout => "Request timeout. This may indicate network restrictions."
  | .billing => "Billing or quota issue. Check your OpenAI account status."
  | .unknown original => "OpenAI API error: " ++ original

/-!
## Spec-side restatements

Definitions in this section follow the wording of the specification (§4.4,
§4.5); the theorems below compare them with the source-derived definitions
above.
-/

/-- Spec §4.5: rank bucket bonus, first matching bucket. -/
def rank_bonus (rank : ℤ) : ℤ :=
  if rank ≤ 3 then 3 else if rank ≤ 5 then 2 else if rank ≤ 10 then 1 else 0

/-- Spec §4.5: +2 for the four high-impact angles. -/
def angle_bonus (angle : String) : ℤ :=
  if angle ∈ high_impact_angles then 2 else 0

/-- Spec §4.5: +1 for completeness score ≥ 0.8. -/
def completeness_bonus (s : ℚ) : ℤ :=
  if s ≥ 0.8 then 1 else 0

/-- Spec §4.5: career-multiple bucket bonus, first matching bucket. -/
def career_bonus (m : ℚ) : ℤ :=
  if m ≥ 5 then 2 else if m ≥ 3 then 1 else 0

/-- The priority computation is the clamped sum of the spec's bonuses. -/
lemma calculate_content_priority_eq (e : EventInfo) (angle : String) :
    calculate_content_priority e angle =
      min (5 + rank_bonus (e.rank.getD 10) + angle_bonus angle +
        completeness_bonus (e.completenessScore.getD 0) +
        career_bonus (e.careerMultiple.getD 1)) 10 := rfl

lemma rank_bonus_bounds (r : ℤ) : 0 ≤ rank_bonus r ∧ rank_bonus r ≤ 3 := by
  unfold rank_bonus; split_ifs <;> omega

lemma angle_bonus_bounds (a : String) : 0 ≤ angle_bonus a ∧ angle_bonus a ≤ 2 := by
  unfold angle_bonus; split_ifs <;> omega

lemma completeness_bonus_bounds (s : ℚ) : 0 ≤ completeness_bonus s ∧ completeness_bonus s ≤ 1 := by
  unfold completeness_bonus; split_ifs <;> omega

lemma career_bonus_bounds (m : ℚ) : 0 ≤ career_bonus m ∧ career_bonus m ≤ 2 := by
  unfold career_bonus; split_ifs <;> omega

lemma rank_bonus_anti {r r' : ℤ} (h : r ≤ r') : rank_bonus r' ≤ rank_bonus r := by
  unfold rank_bonus; split_ifs <;> omega

lemma career_bonus_mono {m m' : ℚ} (h : m ≤ m') : career_bonus m ≤ career_bonus m' := by
  unfold career_bonus; split_ifs <;> first | omega | linarith

/-!
## Claim theorems: priority scorer (C2, C9, C10)
-/

/-- Claim C2 counterexample.  The claim covers both cited implementations, but
the dashboard scorer `calculate_priority_score` does not compute the claimed
expression `min(10, 5 + bonuses)`: on an item with `data_quality_score = 0`
and angle `trending_event` it returns 1, while the claimed formula over the
corresponding event data (rank 11, completeness 0, career multiple 1) yields
5 — and can never yield less than 5. -/
theorem c2_counterexample :
    calculate_priority_score { dataQualityScore := some 0, contentAngle := some "trending_event" } = 1 ∧
    min (5 + rank_bonus 11 + angle_bonus "trending_event" + completeness_bonus 0 + career_bonus 1) 10 = 5 := by
  constructor
  · have h : (angle_scores.find? (fun p => p.1 == "trending_event")) = some ("trending_event", 1) := by
      rfl
    unfold calculate_priority_score
    simp only [Option.getD_some, h, Option.map_some]
    norm_num [trunc_rat]
    rw [show Rat.floor 1 = 1 from rfl]
    decide
  · rw [angle_bonus, if_neg (by decide)]
    norm_num [rank_bonus, completeness_bonus, career_bonus]

/-- Claim C2 (amended): the batch priority scorer
`BatchProcessor._calculate_content_priority` returns
`min(10, 5 + rank bonus + angle bonus + completeness bonus + career bonus)`,
an integer in [1,10] (in fact in [5,10]); the rank=3 / major_spike /
completeness 1.0 / career-multiple 6.0 instance sums to 13 and is clamped to
10.  The dashboard's `calculate_priority_score` uses a different formula
(`min(10, int(5 * quality + angle score))`) and is not covered by the
formula. -/
theorem c2_priority_formula :
    (∀ (e : EventInfo) (angle : String),
      calculate_content_priority e angle =
        min (5 + rank_bonus (e.rank.getD 10) + angle_bonus angle +
          completeness_bonus (e.completenessScore.getD 0) +
          career_bonus (e.careerMultiple.getD 1)) 10 ∧
      1 ≤ calculate_content_priority e angle ∧ calculate_content_priority e angle ≤ 10) ∧
    (5 + rank_bonus 3 + angle_bonus "major_spike" + completeness_bonus 1 + career_bonus 6 = 13 ∧
      calculate_content_priority
        { rank := some 3, completenessScore := some 1, careerMultiple := some 6 } "major_spike" = 10) := by
  refine ⟨fun e angle => ⟨calculate_content_priority_eq e angle, ?_, ?_⟩, ?_, ?_⟩
  · rw [calculate_content_priority_eq]
    have h1 := rank_bonus_bounds (e.rank.getD 10)
    have h2 := angle_bonus_bounds angle
    have h3 := completeness_bonus_bounds (e.completenessScore.getD 0)
    have h4 := career_bonus_bounds (e.careerMultiple.getD 1)
    exact le_min (by omega) (by omega)
  · rw [calculate_content_priority_eq]
    exact min_le_right _ _
  · rw [angle_bonus, if_pos (by decide)]
    norm_num [rank_bonus, completeness_bonus, career_bonus]
  · norm_num [calculate_content_priority, high_impact_angles]

/-- Claim C9: for fixed angle and completeness, the batch priority is
non-increasing in the rank number and non-decreasing in the career
multiple. -/
theorem c9_priority_monotonicity :
    (∀ (e : EventInfo) (angle : String) (r r' : ℤ), r ≤ r' →
      calculate_content_priority { e with rank := some r' } angle ≤
        calculate_content_priority { e with rank := some r } angle) ∧
    (∀ (e : EventInfo) (angle : String) (m m' : ℚ), m ≤ m' →
      calculate_content_priority { e with careerMultiple := some m } angle ≤
        calculate_content_priority { e with careerMultiple := some m' } angle) := by
  constructor
  · intro e angle r r' h
    rw [calculate_content_priority_eq, calculate_content_priority_eq]
    simp only [Option.getD_some]
    exact min_le_min (by have := rank_bonus_anti h; omega) le_rfl
  · intro e angle m m' h
    rw [calculate_content_priority_eq, calculate_content_priority_eq]
    simp only [Option.getD_some]
    exact min_le_min (by have := career_bonus_mono h; omega) le_rfl

/-- Witness for C9 at concrete inputs. -/
theorem c9_priority_monotonicity_witness :
    calculate_content_priority { ({} : EventInfo) with rank := some 6 } "major_spike" ≤
      calculate_content_priority { ({} : EventInfo) with rank := some 2 } "major_spike" ∧
    calculate_content_priority { ({} : EventInfo) with careerMultiple := some 2 } "major_spike" ≤
      calculate_content_priority { ({} : EventInfo) with careerMultiple := some 7 } "major_spike" :=
  ⟨c9_priority_monotonicity.1 {} "major_spike" 2 6 (by norm_num),
   c9_priority_monotonicity.2 {} "major_spike" 2 7 (by norm_num)⟩

/-- Claim C10: for every event dictionary (missing context groups allowed) and
every angle string, the batch priority scorer returns an integer in [5,10]. -/
theorem c10_priority_tight_range (e : EventInfo) (angle : String) :
    5 ≤ calculate_content_priority e angle ∧ calculate_content_priority e angle ≤ 10 := by
  rw [calculate_content_priority_eq]
  have h1 := rank_bonus_bounds (e.rank.getD 10)
  have h2 := angle_bonus_bounds angle
  have h3 := completeness_bonus_bounds (e.completenessScore.getD 0)
  have h4 := career_bonus_bounds (e.careerMultiple.getD 1)
  exact ⟨le_min (by omega) (by omega), min_le_right _ _⟩

/-!
## Claim theorems: completeness scorer (C8)
-/

/-- Claim C8: the completeness score equals the count of present optional
rows divided by 3, lies in {0, 1/3, 2/3, 1}, agrees with the three presence
booleans, and depends only on row presence — not on any field value inside
the rows. -/
theorem c8_completeness_score :
    (∀ hist_row trend_row market_row : Option Row,
      (assess_data_completeness hist_row trend_row market_row).completenessScore =
        (([hist_row.isSome, trend_row.isSome, market_row.isSome].count true : ℚ)) / 3 ∧
      (assess_data_completeness hist_row trend_row market_row).completenessScore ∈
        ({0, 1/3, 2/3, 1} : Set ℚ) ∧
      (assess_data_completeness hist_row trend_row market_row).hasHistoricalContext
        = hist_row.isSome ∧
      (assess_data_completeness hist_row trend_row market_row).hasTrendAnalysis
        = trend_row.isSome ∧
      (assess_data_completeness hist_row trend_row market_row).hasMarketPositioning
        = market_row.isSome) ∧
    (∀ h t m h' t' m' : Option Row, h.isSome = h'.isSome → t.isSome = t'.isSome →
      m.isSome = m'.isSome →
      assess_data_completeness h t m = assess_data_completeness h' t' m') := by
  constructor
  · intro h t m
    cases h <;> cases t <;> cases m <;>
      exact ⟨by norm_num [assess_data_completeness],
        by norm_num [assess_data_completeness, Set.mem_insert_iff, Set.mem_singleton_iff],
        rfl, rfl, rfl⟩
  · intro h t m h' t' m' hh ht hm
    cases h <;> cases t <;> cases m <;> cases h' <;> cases t' <;> cases m' <;>
      simp_all [assess_data_completeness]

/-- Witness for C8: two triples with equal presence but different row
contents yield equal completeness records. -/
theorem c8_completeness_score_witness :
    assess_data_completeness (some []) none (some [("X", Val.num 1)]) =
      assess_data_completeness (some [("Y", Val.null)]) none (some []) :=
  c8_completeness_score.2 (some []) none (some [("X", Val.num 1)])
    (some [("Y", Val.null)]) none (some []) rfl rfl rfl

/-!
## Claim theorems: error classification (C6)
-/

/-- Claim C6: every failure of the text-generation call is classified (never
re-raised): `create_social_post` on an error outcome returns an error-flagged
result whose visual text and caption both carry the fixed human-readable
message for the cause determined by ordered substring inspection of the
lowercased error text, with `unknown` as fallback. -/
theorem c6_error_classification (model platform error_msg : String) :
    create_social_post model platform (.error error_msg) =
      { visualText := "❌ " ++ failure_message model (classify_failure error_msg)
        caption := "❌ " ++ failure_message model (classify_failure error_msg)
        platform := platform
        error := true } := by
  unfold create_social_post classify_failure
  simp only []
  split_ifs <;> rfl

/-!
## Claim theorems: angle classifier (C1)
-/

/-- Spec §4.4 row 1: career-spike category, highest threshold first. -/
def career_angle_spec (cm : ℚ) : Option String :=
  if cm ≥ 5 then some "major_spike"
  else if cm ≥ 3 then some "significant_spike"
  else if cm ≥ 2 then some "notable_performance"
  else none

/-- Spec §4.4 row 2: international-appeal category. -/
def intl_angle_spec (p : ℚ) : Option String :=
  if p > 40 then some "international_phenomenon"
  else if p > 25 then some "international_appeal"
  else none

/-- Spec §4.4 row 3: genre-rank category. -/
def genre_angle_spec (r : ℤ) : Option String :=
  if r ≤ 3 then some "genre_leader" else if r ≤ 10 then some "top_performer" else none

/-- Spec §4.4 row 4: price-trend category. -/
def price_angle_spec (p : ℚ) : Option String :=
  if p > 30 then some "pricing_surge" else if p > 15 then some "demand_indicator" else none

/-- Spec §4.4 row 5: tour-standout category, gated on a truthy tour name. -/
def tour_angle_spec (tm : ℚ) (name : Val) : Option String :=
  if tm > 1.5 ∧ py_truthy name then some "tour_standout" else none

/-- Spec §4.4: at most one label per category, in category evaluation order
(career spike, international, genre rank, price trend, tour standout). -/
def angle_table_spec (e : EventInfo) : List String :=
  [career_angle_spec (e.careerMultiple.getD 0), intl_angle_spec (e.internationalPct.getD 0),
   genre_angle_spec (e.genreRank.getD 999), price_angle_spec (e.priceAppreciationPct.getD 0),
   tour_angle_spec (e.tourMultiple.getD 0) (e.tourName.getD .null)].filterMap id

/-- Spec §4.4: the rank-based fallback when no category matched. -/
def classify_spec (e : EventInfo) : List String :=
  if angle_table_spec e = [] then
    if e.rank.getD 10 ≤ 5 then ["top_performance"] else ["trending_event"]
  else angle_table_spec e

lemma filterMap_id_cons (o : Option String) (l : List (Option String)) :
    (o :: l).filterMap id = o.toList ++ l.filterMap id := by
  cases o <;> simp

lemma career_append (l : List String) (cm : ℚ) :
    (if cm ≥ 5 then l ++ ["major_spike"]
     else if cm ≥ 3 then l ++ ["significant_spike"]
     else if cm ≥ 2 then l ++ ["notable_performance"] else l) =
      l ++ (career_angle_spec cm).toList := by
  unfold career_angle_spec; split_ifs <;> simp

lemma intl_append (l : List String) (p : ℚ) :
    (if p > 40 then l ++ ["international_phenomenon"]
     else if p > 25 then l ++ ["international_appeal"] else l) =
      l ++ (intl_angle_spec p).toList := by
  unfold intl_angle_spec; split_ifs <;> simp

lemma genre_append (l : List String) (r : ℤ) :
    (if r ≤ 3 then l ++ ["genre_leader"] else if r ≤ 10 then l ++ ["top_performer"] else l) =
      l ++ (genre_angle_spec r).toList := by
  unfold genre_angle_spec; split_ifs <;> simp

lemma price_append (l : List String) (p : ℚ) :
    (if p > 30 then l ++ ["pricing_surge"] else if p > 15 then l ++ ["demand_indicator"] else l) =
      l ++ (price_angle_spec p).toList := by
  unfold price_angle_spec; split_ifs <;> simp

lemma tour_append (l : List String) (tm : ℚ) (name : Val) :
    (if tm > 1.5 ∧ py_truthy name then l ++ ["tour_standout"] else l) =
      l ++ (tour_angle_spec tm name).toList := by
  unfold tour_angle_spec; split_ifs <;> simp

lemma tour_step_eq (l : List String) (tm : ℚ) (name : Val) :
    (if py_truthy name then (if tm > 1.5 then l ++ ["tour_standout"] else l) else l) =
      (if tm > 1.5 ∧ py_truthy name then l ++ ["tour_standout"] else l) := by
  split_ifs <;> first | rfl | tauto

/-- The concrete event from the claim: career 6.0, international 50,
genre rank 2, price appreciation 35, tour multiple 2.0, tour name present. -/
def c1_event : EventInfo :=
  { rank := some 1, internationalPct := some 50, careerMultiple := some 6,
    genreRank := some 2, priceAppreciationPct := some 35, tourMultiple := some 2,
    tourName := some (.str "X"), completenessScore := some 1 }

/-- Claim C1 counterexample.  The claim covers both cited classifiers, but the
pipeline classifier `SocialContentPipeline.identify_content_angles` truncates
its result to the first three labels (`return angles[:3]`): on the claim's own
event it returns three labels, not the claimed five. -/
theorem c1_counterexample :
    identify_content_angles_gen c1_event =
      ["major_spike", "international_phenomenon", "genre_leader"] ∧
    identify_content_angles_gen c1_event ≠
      ["major_spike", "international_phenomenon", "genre_leader", "pricing_surge",
        "tour_standout"] := by
  have h : identify_content_angles_gen c1_event =
      ["major_spike", "international_phenomenon", "genre_leader"] := by
    norm_num [identify_content_angles_gen, c1_event, py_truthy]
    decide
  exact ⟨h, by rw [h]; simp⟩

/-- Claim C1 (amended): the batch classifier
`BatchProcessor._identify_content_angles` returns exactly the labels of the
fixed rule table in category evaluation order, at most one per category by
the first matching threshold, with the rank-based fallback when no rule
matches; the pipeline classifier `identify_content_angles` returns the first
three labels of that same list.  On the claim's concrete event the batch
classifier returns the claimed five labels in order, and the pipeline
classifier the first three of them. -/
theorem c1_angle_classifier :
    (∀ e : EventInfo, identify_content_angles e = classify_spec e) ∧
    (∀ e : EventInfo, identify_content_angles_gen e = (identify_content_angles e).take 3) ∧
    identify_content_angles c1_event =
      ["major_spike", "international_phenomenon", "genre_leader", "pricing_surge",
        "tour_standout"] ∧
    identify_content_angles_gen c1_event =
      ["major_spike", "international_phenomenon", "genre_leader"] := by
  refine ⟨?_, ?_, ?_, ?_⟩
  · intro e
    simp only [identify_content_angles, classify_spec, angle_table_spec]
    rw [career_append, intl_append, genre_append, price_append, tour_append]
    simp [filterMap_id_cons, List.append_assoc]
  · intro e
    simp only [identify_content_angles, identify_content_angles_gen]
    rw [tour_step_eq]
  · norm_num [identify_content_angles, c1_event, py_truthy]
    decide
  · norm_num [identify_content_angles_gen, c1_event, py_truthy]
    decide

/-!
## Claim theorems: artist display name (C4)
-/

/-- Claim C4 counterexample: the claim excludes the literal string `"nan"`,
but `get_artist_name` has no such check — a classified value `"nan"` is used
as the display name instead of falling back to the category column. -/
theorem c4_counterexample :
    get_artist_name
        [("CLASSIFIED_ARTIST_NAME", .str "nan"), ("EVENT_CATEGORY_NAME", .str "Rock")] = "nan" ∧
    get_artist_name
        [("CLASSIFIED_ARTIST_NAME", .str "nan"), ("EVENT_CATEGORY_NAME", .str "Rock")] ≠ "Rock" := by
  constructor <;> decide

/-- Claim C4 (amended): in `DataProcessor._build_event_object`, the display
name equals the classified-artist column when that value is non-null,
non-empty after trimming, and not the literal string `"None"` — the literal
string `"nan"` is NOT excluded; otherwise it equals the category column, and
`"Unknown"` when that column is absent too.  The generator pipeline
(`structure_event_data` line 98) applies no filtering at all: any present
classified value (empty or sentinel included) is used verbatim. -/
theorem c4_artist_display_name :
    (∀ base_row : Row,
      (series_get base_row "CLASSIFIED_ARTIST_NAME" ≠ .null →
        val_eq_str (series_get base_row "CLASSIFIED_ARTIST_NAME") "None" = false →
        py_strip (py_str (series_get base_row "CLASSIFIED_ARTIST_NAME")) ≠ "" →
        get_artist_name base_row = py_str (series_get base_row "CLASSIFIED_ARTIST_NAME")) ∧
      ((series_get base_row "CLASSIFIED_ARTIST_NAME" = .null ∨
          val_eq_str (series_get base_row "CLASSIFIED_ARTIST_NAME") "None" = true ∨
          py_strip (py_str (series_get base_row "CLASSIFIED_ARTIST_NAME")) = "") →
        get_artist_name base_row =
          py_str ((row_find base_row "EVENT_CATEGORY_NAME").getD (.str "Unknown")))) ∧
    (∀ base_row : Row, row_find base_row "CLASSIFIED_ARTIST_NAME" = none →
      row_find base_row "EVENT_CATEGORY_NAME" = none →
      get_artist_name base_row = "Unknown") ∧
    (∀ (base_row : Row) (v : Val), row_find base_row "CLASSIFIED_ARTIST_NAME" = some v →
      gen_classified_artist_name base_row = py_str v) := by
  refine ⟨fun base_row => ⟨?_, ?_⟩, ?_, ?_⟩
  · intro h1 h2 h3
    unfold get_artist_name
    rw [if_neg]
    push_neg
    exact ⟨h1, by simp [h2], h3⟩
  · intro h
    unfold get_artist_name
    rw [if_pos h]
  · intro base_row h1 h2
    unfold get_artist_name
    simp [series_get, h1, h2, py_str]
  · intro base_row v h
    unfold gen_classified_artist_name
    rw [h]
    rfl

/-- Witness for C4 at concrete rows: a plain name is kept, a blank one falls
back to the category, an empty row yields `"Unknown"`, and the generator
variant keeps even an empty classified value. -/
theorem c4_artist_display_name_witness :
    get_artist_name [("CLASSIFIED_ARTIST_NAME", Val.str "Mitski")] = "Mitski" ∧
    get_artist_name
      [("CLASSIFIED_ARTIST_NAME", Val.str "  "), ("EVENT_CATEGORY_NAME", Val.str "Pop")] = "Pop" ∧
    get_artist_name [] = "Unknown" ∧
    gen_classified_artist_name [("CLASSIFIED_ARTIST_NAME", Val.str "")] = "" := by
  refine ⟨?_, ?_, ?_, ?_⟩
  · exact ((c4_artist_display_name.1 [("CLASSIFIED_ARTIST_NAME", Val.str "Mitski")]).1
      (by decide) (by decide) (by decide)).trans rfl
  · exact ((c4_artist_display_name.1
      [("CLASSIFIED_ARTIST_NAME", Val.str "  "), ("EVENT_CATEGORY_NAME", Val.str "Pop")]).2
      (by decide)).trans rfl
  · exact c4_artist_display_name.2.1 [] rfl rfl
  · exact c4_artist_display_name.2.2 [("CLASSIFIED_ARTIST_NAME", Val.str "")] (Val.str "") rfl

/-!
## Claim theorems: extraction failure semantics (C3)
-/

/-- `Except.isOk`-style discriminator. -/
def except_ok {ε α : Type} : Except ε α → Bool
  | .ok _ => true
  | .error _ => false

/-- The base columns `structure_event_row` indexes directly, plus coercibility
of the rank value: exactly the conditions under which the generator
row-builder succeeds. -/
def mandatory_ok_gen (base_row : Row) : Bool :=
  (row_find base_row "EVENT_ID").isSome && (row_find base_row "EVENT_NAME").isSome &&
  (row_find base_row "EVENT_PARENT_CATEGORY_NAME").isSome &&
  (row_find base_row "VENUE_CITY").isSome && (row_find base_row "VENUE_COUNTRY_NAME").isSome &&
  (row_find base_row "EVENT_DATE").isSome &&
  ((row_find base_row "RECENT_GMS_RANK").bind py_int).isSome &&
  (row_find base_row "TOTAL_GMS").isSome && (row_find base_row "RECENT_7D_GMS").isSome &&
  (row_find base_row "TOTAL_TICKETS_SOLD").isSome &&
  (row_find base_row "AVG_TICKET_COST").isSome &&
  (row_find base_row "GMS_PER_TICKET").isSome &&
  (row_find base_row "INTERNATIONAL_GMS_PCT").isSome

/-- The (smaller) mandatory column set of `DataProcessor._build_event_object`:
its performance metrics go through `safe_get` and are optional. -/
def mandatory_ok_dp (base_row : Row) : Bool :=
  (row_find base_row "EVENT_ID").isSome && (row_find base_row "EVENT_NAME").isSome &&
  (row_find base_row "EVENT_PARENT_CATEGORY_NAME").isSome &&
  (row_find base_row "VENUE_CITY").isSome && (row_find base_row "VENUE_COUNTRY_NAME").isSome &&
  (row_find base_row "EVENT_DATE").isSome &&
  ((row_find base_row "RECENT_GMS_RANK").bind py_int).isSome

lemma structure_event_row_ok_iff (base_row : Row) (h t m : Option Row) :
    except_ok (structure_event_row base_row h t m) = mandatory_ok_gen base_row := by
  unfold structure_event_row mandatory_ok_gen
  repeat' split
  all_goals simp_all [except_ok]

lemma build_event_object_ok_iff (base_row : Row) (h t m : Option Row) :
    except_ok (build_event_object base_row h t m) = mandatory_ok_dp base_row := by
  unfold build_event_object mandatory_ok_dp
  repeat' split
  all_goals simp_all [except_ok]

lemma structure_loop_ok {bs : List Row} (hist_df trend_df market_df : List Row)
    (h : ∀ r ∈ bs, mandatory_ok_gen r = true) :
    ∃ evs, structure_loop bs hist_df trend_df market_df = .ok evs ∧ evs.length = bs.length := by
  induction bs with
  | nil => exact ⟨[], rfl, rfl⟩
  | cons b rest ih =>
    have hb : mandatory_ok_gen b = true := h b (List.mem_cons_self b rest)
    obtain ⟨evs, hevs, hlen⟩ := ih (fun r hr => h r (List.mem_cons_of_mem _ hr))
    cases hEid : row_find b "EVENT_ID" with
    | none => simp [mandatory_ok_gen, hEid] at hb
    | some eid =>
      cases hrow : structure_event_row b (get_matching_row hist_df eid)
          (get_matching_row trend_df eid) (get_matching_row market_df eid) with
      | error e =>
        have := structure_event_row_ok_iff b (get_matching_row hist_df eid)
          (get_matching_row trend_df eid) (get_matching_row market_df eid)
        rw [hrow, hb] at this
        simp [except_ok] at this
      | ok ev =>
        refine ⟨ev :: evs, ?_, by simp [hlen]⟩
        simp [structure_loop, hEid, hrow, hevs]

lemma structure_loop_error {bs : List Row} (hist_df trend_df market_df : List Row)
    (h : ∃ r ∈ bs, mandatory_ok_gen r = false) :
    except_ok (structure_loop bs hist_df trend_df market_df) = false := by
  induction bs with
  | nil => simp at h
  | cons b rest ih =>
    obtain ⟨r, hr, hfalse⟩ := h
    cases hEid : row_find b "EVENT_ID" with
    | none => simp [structure_loop, hEid, except_ok]
    | some eid =>
      cases hrow : structure_event_row b (get_matching_row hist_df eid)
          (get_matching_row trend_df eid) (get_matching_row market_df eid) with
      | error e => simp [structure_loop, hEid, hrow, except_ok]
      | ok ev =>
        rcases List.mem_cons.mp hr with rfl | hmem
        · have := structure_event_row_ok_iff r (get_matching_row hist_df eid)
            (get_matching_row trend_df eid) (get_matching_row market_df eid)
          rw [hrow, hfalse] at this
          simp [except_ok] at this
        · have hrest := ih ⟨r, hmem, hfalse⟩
          cases hloop : structure_loop rest hist_df trend_df market_df with
          | error e => simp [structure_loop, hEid, hrow, hloop, except_ok]
          | ok evs => rw [hloop] at hrest; simp [except_ok] at hrest

/-- The claim's base row missing the mandatory `EVENT_NAME` column. -/
def c3_bad_row : Row := [("EVENT_ID", .str "E1")]

/-- A fully-populated base row. -/
def c3_good_row : Row :=
  [("EVENT_ID", .str "E2"), ("EVENT_NAME", .str "Arena Show"),
   ("EVENT_PARENT_CATEGORY_NAME", .str "Rock"), ("VENUE_CITY", .str "Paris"),
   ("VENUE_COUNTRY_NAME", .str "France"), ("EVENT_DATE", .str "2025-07-01"),
   ("RECENT_GMS_RANK", .num 1), ("TOTAL_GMS", .num 100000),
   ("RECENT_7D_GMS", .num 50000), ("TOTAL_TICKETS_SOLD", .num 1000),
   ("AVG_TICKET_COST", .num 100), ("GMS_PER_TICKET", .num 100),
   ("INTERNATIONAL_GMS_PCT", .num (1/4))]

/-- Claim C3 counterexample: a non-empty base table whose first row lacks a
mandatory column makes the entire structuring call raise (`KeyError`
propagates out of the row loop); the remaining valid row is not processed and
no error counter is kept — the claim's skip-and-continue behaviour does not
exist at extraction. -/
theorem c3_counterexample :
    except_ok (structure_event_data [c3_bad_row, c3_good_row] [] [] []) = false ∧
    structure_event_data [c3_bad_row, c3_good_row] [] [] [] = .error "KeyError: EVENT_NAME" ∧
    except_ok (structure_event_data [c3_good_row] [] [] []) = true :=
  ⟨rfl, rfl, rfl⟩

/-- Claim C3 (amended): extraction of optional context never raises (the
safe getters default), and a row-builder call fails exactly when a mandatory
base column (event id/name/date, genre, venue city/country, a coercible rank
— plus, in the generator, the directly indexed performance columns) is
absent.  But the enclosing row loop does NOT catch such an error: the whole
structuring call raises and emits nothing; a batch succeeds (with one output
per row) only when every row has its mandatory columns.  Additionally,
`DataProcessor.process_event_data` applies `not` to a DataFrame in its guard,
which raises `ValueError` whenever a base table is present, so that cited
entry point always raises regardless of row contents.  Per-row
catch/skip/count exists only downstream, in
`BatchProcessor.process_events_batch` over already-structured events. -/
theorem c3_row_error_handling :
    (∀ (base_row : Row) (h t m : Option Row),
      except_ok (structure_event_row base_row h t m) = mandatory_ok_gen base_row) ∧
    (∀ (base_row : Row) (h t m : Option Row),
      except_ok (build_event_object base_row h t m) = mandatory_ok_dp base_row) ∧
    (∀ (bs hist_df trend_df market_df : List Row),
      (∀ r ∈ bs, mandatory_ok_gen r = true) →
      except_ok (structure_event_data bs hist_df trend_df market_df) = true ∧
      (structure_event_data bs hist_df trend_df market_df).map List.length = .ok bs.length) ∧
    (∀ (pre post : List Row) (bad : Row) (hist_df trend_df market_df : List Row),
      mandatory_ok_gen bad = false →
      except_ok (structure_event_data (pre ++ bad :: post) hist_df trend_df market_df) = false) ∧
    (∀ (raw : String → Option (List Row)) (df : List Row),
      raw "base_events" = some df → except_ok (process_event_data raw) = false) := by
  refine ⟨structure_event_row_ok_iff, build_event_object_ok_iff, ?_, ?_, ?_⟩
  · intro bs hist_df trend_df market_df h
    cases bs with
    | nil => exact ⟨rfl, rfl⟩
    | cons b rest =>
      obtain ⟨evs, hevs, hlen⟩ := structure_loop_ok hist_df trend_df market_df h
      constructor
      · simp [structure_event_data, hevs, except_ok]
      · simp [structure_event_data, hevs, Except.map, hlen]
  · intro pre post bad hist_df trend_df market_df hbad
    have hex : ∃ r ∈ pre ++ bad :: post, mandatory_ok_gen r = false := ⟨bad, by simp, hbad⟩
    have h := structure_loop_error hist_df trend_df market_df hex
    have hne : (pre ++ bad :: post).isEmpty = false := by
      cases pre <;> simp
    simp [structure_event_data, hne, h]
  · intro raw df hdf
    simp [process_event_data, py_not_df, hdf, except_ok]

/-- Witness for C3 at concrete inputs: an all-valid batch succeeds with one
event per row, a batch containing the bad row fails as a whole, and
`process_event_data` fails on any present base table. -/
theorem c3_row_error_handling_witness :
    (except_ok (structure_event_data [c3_good_row] [] [] []) = true ∧
      (structure_event_data [c3_good_row] [] [] []).map List.length = .ok 1) ∧
    except_ok (structure_event_data ([] ++ c3_bad_row :: [c3_good_row]) [] [] []) = false ∧
    except_ok (process_event_data (fun _ => some [c3_good_row])) = false :=
  ⟨c3_row_error_handling.2.2.1 [c3_good_row] [] [] [] (by decide),
   c3_row_error_handling.2.2.2.1 [] [c3_good_row] c3_bad_row [] [] [] (by decide),
   c3_row_error_handling.2.2.2.2 (fun _ => some [c3_good_row]) [c3_good_row] rfl⟩

/-!
## Claim theorems: percentage scaling (C5)
-/

/-- Every value the named source column holds — when present and
float-coercible — is a 0–1 fraction. -/
def frac_col_ok (r : Row) (k : String) : Prop :=
  ∀ v q, row_find r k = some v → py_float v = some q → 0 ≤ q ∧ q ≤ 1

lemma frac_series_get {r : Row} {k : String} (h : frac_col_ok r k) :
    ∀ q, py_float (series_get r k) = some q → 0 ≤ q ∧ q ≤ 1 := by
  intro q hq
  unfold series_get at hq
  cases hrf : row_find r k with
  | none => rw [hrf] at hq; simp [py_float] at hq
  | some v => rw [hrf] at hq; exact h v q hrf hq

lemma frac_getD_zero {r : Row} {k : String} (h : frac_col_ok r k) :
    ∀ q, py_float ((row_find r k).getD (.num 0)) = some q → 0 ≤ q ∧ q ≤ 1 := by
  intro q hq
  cases hrf : row_find r k with
  | none =>
    rw [hrf] at hq
    simp [py_float] at hq
    simp [← hq]
  | some v => rw [hrf] at hq; exact h v q hrf hq

lemma safe_float_scaled_bounds (v : Val)
    (hv : ∀ q, py_float v = some q → 0 ≤ q ∧ q ≤ 1) :
    0 ≤ safe_float v 0 * 100 ∧ safe_float v 0 * 100 ≤ 100 := by
  unfold safe_float
  cases hq : py_float v with
  | none => norm_num
  | some q =>
    obtain ⟨h1, h2⟩ := hv q hq
    simp only [Option.getD_some]
    constructor <;> nlinarith

lemma safe_get_float_scaled_bounds (row : Option Row) (k : String)
    (h : ∀ r, row = some r → frac_col_ok r k) :
    0 ≤ safe_get_float row k 0 * 100 ∧ safe_get_float row k 0 * 100 ≤ 100 := by
  unfold safe_get_float
  cases row with
  | none => norm_num
  | some r =>
    simp only []
    cases hrf : row_find r k with
    | none => norm_num
    | some v =>
      cases v with
      | null => norm_num
      | str s =>
        cases hq : py_float (.str s) with
        | none => simp [hq]
        | some q =>
          obtain ⟨h1, h2⟩ := h r rfl _ q hrf hq
          simp only [hq, Option.getD_some]
          constructor <;> nlinarith
      | num q =>
        obtain ⟨h1, h2⟩ := h r rfl _ q hrf (by simp [py_float])
        simp only [py_float, Option.getD_some]
        constructor <;> nlinarith
      | bool b =>
        obtain ⟨h1, h2⟩ := h r rfl _ (if b then 1 else 0) hrf (by simp [py_float])
        simp only [py_float, Option.getD_some]
        rcases b with _ | _ <;> constructor <;> simp_all

/-- Inverting a successful generator row build: the percentage-carrying
fields are exactly the scaled extractions. -/
lemma structure_event_row_fields {base_row : Row} {h t m : Option Row} {ev : GenEvent}
    (hok : structure_event_row base_row h t m = .ok ev) :
    ev.internationalPct = safe_float (series_get base_row "INTERNATIONAL_GMS_PCT") 0 * 100 ∧
    ev.trendInsights = extract_trend_insights t ∧
    ev.marketPosition = extract_market_position m ∧
    ev.geographicInsights = extract_geographic_insights t := by
  unfold structure_event_row at hok
  repeat' split at hok
  all_goals try exact Except.noConfusion hok
  injection hok with h2
  subst h2
  refine ⟨?_, rfl, rfl, rfl⟩
  simp_all [series_get]

/-- Inverting a successful DataProcessor build: the percentage-carrying
fields are exactly the scaled `safe_get` extractions. -/
lemma build_event_object_fields {base_row : Row} {h t m : Option Row} {ev : DPEvent}
    (hok : build_event_object base_row h t m = .ok ev) :
    ev.internationalPct = safe_get_float (some base_row) "INTERNATIONAL_GMS_PCT" 0 * 100 ∧
    ev.trendInsights.priceAppreciationPct = safe_get_float t "PRICE_APPRECIATION_PCT" 0 * 100 ∧
    ev.marketPosition.last7dMarketSharePct
      = safe_get_float m "LAST_7D_MARKET_SHARE_PCT" 0 * 100 ∧
    ev.topBuyerCountries = (["1", "2", "3"] : List String).filterMap (fun i =>
      if py_truthy (safe_get_raw t ("TOP_BUYER_COUNTRY_" ++ i) .null) = true then
        some { country := safe_get_raw t ("TOP_BUYER_COUNTRY_" ++ i) (.str "")
               percentage := safe_get_float t ("TOP_BUYER_COUNTRY_" ++ i ++ "_PCT") 0 * 100 }
      else none) := by
  unfold build_event_object at hok
  repeat' split at hok
  all_goals try exact Except.noConfusion hok
  injection hok with h2
  subst h2
  exact ⟨rfl, rfl, rfl, rfl⟩

/-- Claim C5: extraction multiplies each percentage-valued source fraction by
100 exactly once — international-buyer pct, price-appreciation pct, last-7-day
market-share pct, year-to-date market-share pct (the last exists only in the
generator pipeline: `_build_event_object` has no year-to-date market-share
field) — and whenever every percentage-valued source value is a 0–1 fraction,
every percentage field of the built event lies in [0,100]. -/
theorem c5_percentage_scaling :
    (∀ (base_row : Row) (h t m : Option Row) (q : ℚ),
      row_find base_row "INTERNATIONAL_GMS_PCT" = some (.num q) →
      except_ok (structure_event_row base_row h t m) = true →
      (structure_event_row base_row h t m).map GenEvent.internationalPct = .ok (q * 100)) ∧
    (∀ (r : Row) (q : ℚ), row_find r "PRICE_APPRECIATION_PCT" = some (.num q) →
      (extract_trend_insights (some r)).map TrendIns.priceAppreciationPct = some (q * 100)) ∧
    (∀ (r : Row) (q : ℚ), row_find r "LAST_7D_MARKET_SHARE_PCT" = some (.num q) →
      (extract_market_position (some r)).map MarketPos.last7dMarketSharePct = some (q * 100)) ∧
    (∀ (r : Row) (q : ℚ), row_find r "YTD_MARKET_SHARE_PCT" = some (.num q) →
      (extract_market_position (some r)).map MarketPos.ytdMarketSharePct = some (q * 100)) ∧
    (∀ (base_row : Row) (h t m : Option Row) (ev : GenEvent),
      structure_event_row base_row h t m = .ok ev →
      frac_col_ok base_row "INTERNATIONAL_GMS_PCT" →
      (∀ r, t = some r → frac_col_ok r "PRICE_APPRECIATION_PCT" ∧
        frac_col_ok r "TOP_BUYER_COUNTRY_1_PCT" ∧ frac_col_ok r "TOP_BUYER_COUNTRY_2_PCT" ∧
        frac_col_ok r "TOP_BUYER_COUNTRY_3_PCT") →
      (∀ r, m = some r → frac_col_ok r "LAST_7D_MARKET_SHARE_PCT" ∧
        frac_col_ok r "YTD_MARKET_SHARE_PCT") →
      (0 ≤ ev.internationalPct ∧ ev.internationalPct ≤ 100) ∧
      (∀ ti, ev.trendInsights = some ti →
        0 ≤ ti.priceAppreciationPct ∧ ti.priceAppreciationPct ≤ 100) ∧
      (∀ mp, ev.marketPosition = some mp →
        (0 ≤ mp.last7dMarketSharePct ∧ mp.last7dMarketSharePct ≤ 100) ∧
        (0 ≤ mp.ytdMarketSharePct ∧ mp.ytdMarketSharePct ≤ 100)) ∧
      (∀ gi c, ev.geographicInsights = some gi → c ∈ gi.topBuyerCountries →
        0 ≤ c.percentage ∧ c.percentage ≤ 100)) ∧
    (∀ (base_row : Row) (h t m : Option Row) (ev : DPEvent),
      build_event_object base_row h t m = .ok ev →
      (∀ q : ℚ, row_find base_row "INTERNATIONAL_GMS_PCT" = some (.num q) →
        ev.internationalPct = q * 100) ∧
      (∀ (r : Row) (q : ℚ), t = some r → row_find r "PRICE_APPRECIATION_PCT" = some (.num q) →
        ev.trendInsights.priceAppreciationPct = q * 100) ∧
      (∀ (r : Row) (q : ℚ), m = some r → row_find r "LAST_7D_MARKET_SHARE_PCT" = some (.num q) →
        ev.marketPosition.last7dMarketSharePct = q * 100) ∧
      (frac_col_ok base_row "INTERNATIONAL_GMS_PCT" →
        0 ≤ ev.internationalPct ∧ ev.internationalPct ≤ 100) ∧
      ((∀ r, t = some r → frac_col_ok r "PRICE_APPRECIATION_PCT") →
        0 ≤ ev.trendInsights.priceAppreciationPct ∧
          ev.trendInsights.priceAppreciationPct ≤ 100) ∧
      ((∀ r, m = some r → frac_col_ok r "LAST_7D_MARKET_SHARE_PCT") →
        0 ≤ ev.marketPosition.last7dMarketSharePct ∧
          ev.marketPosition.last7dMarketSharePct ≤ 100) ∧
      ((∀ r, t = some r → frac_col_ok r "TOP_BUYER_COUNTRY_1_PCT" ∧
          frac_col_ok r "TOP_BUYER_COUNTRY_2_PCT" ∧ frac_col_ok r "TOP_BUYER_COUNTRY_3_PCT") →
        ∀ c ∈ ev.topBuyerCountries, 0 ≤ c.percentage ∧ c.percentage ≤ 100)) := by
  refine ⟨?_, ?_, ?_, ?_, ?_, ?_⟩
  · intro base_row h t m q hq hok
    cases hE : structure_event_row base_row h t m with
    | error e => rw [hE] at hok; simp [except_ok] at hok
    | ok ev =>
      obtain ⟨hintl, -, -, -⟩ := structure_event_row_fields hE
      simp [Except.map, hintl, series_get, hq, safe_float, py_float]
  · intro r q hq
    simp [extract_trend_insights, hq, safe_float, py_float]
  · intro r q hq
    simp [extract_market_position, hq, safe_float, py_float]
  · intro r q hq
    simp [extract_market_position, hq, safe_float, py_float]
  · intro base_row h t m ev hok hbase ht hm
    obtain ⟨hintl, htrend, hmarket, hgeo⟩ := structure_event_row_fields hok
    refine ⟨?_, ?_, ?_, ?_⟩
    · rw [hintl]; exact safe_float_scaled_bounds _ (frac_series_get hbase)
    · intro ti hti
      rw [htrend] at hti
      cases t with
      | none => simp [extract_trend_insights] at hti
      | some r =>
        obtain ⟨hp, -, -, -⟩ := ht r rfl
        simp only [extract_trend_insights, Option.map_some', Option.some_inj] at hti
        rw [← hti]
        exact safe_float_scaled_bounds _ (frac_getD_zero hp)
    · intro mp hmp
      rw [hmarket] at hmp
      cases m with
      | none => simp [extract_market_position] at hmp
      | some r =>
        obtain ⟨h7, hy⟩ := hm r rfl
        simp only [extract_market_position, Option.map_some', Option.some_inj] at hmp
        rw [← hmp]
        exact ⟨safe_float_scaled_bounds _ (frac_getD_zero h7),
          safe_float_scaled_bounds _ (frac_getD_zero hy)⟩
    · intro gi c hgi hc
      rw [hgeo] at hgi
      cases t with
      | none => simp [extract_geographic_insights] at hgi
      | some r =>
        obtain ⟨-, h1, h2, h3⟩ := ht r rfl
        simp only [extract_geographic_insights, Option.map_some', Option.some_inj] at hgi
        rw [← hgi] at hc
        simp only [List.mem_filterMap] at hc
        obtain ⟨i, hi, hif⟩ := hc
        simp only [List.mem_cons, List.mem_singleton] at hi
        rcases hi with rfl | rfl | rfl | hfalse
        · split at hif
          · obtain rfl := Option.some_inj.mp hif
            exact safe_float_scaled_bounds _ (frac_series_get h1)
          · exact absurd hif (by simp)
        · split at hif
          · obtain rfl := Option.some_inj.mp hif
            exact safe_float_scaled_bounds _ (frac_series_get h2)
          · exact absurd hif (by simp)
        · split at hif
          · obtain rfl := Option.some_inj.mp hif
            exact safe_float_scaled_bounds _ (frac_series_get h3)
          · exact absurd hif (by simp)
        · simp at hfalse
  · intro base_row h t m ev hok
    obtain ⟨hintl, hprice, hshare, hgeo⟩ := build_event_object_fields hok
    refine ⟨?_, ?_, ?_, ?_, ?_, ?_, ?_⟩
    · intro q hq
      rw [hintl]
      simp [safe_get_float, hq, py_float]
    · intro r q hr hq
      subst hr
      rw [hprice]
      simp [safe_get_float, hq, py_float]
    · intro r q hr hq
      subst hr
      rw [hshare]
      simp [safe_get_float, hq, py_float]
    · intro hfrac
      rw [hintl]
      exact safe_get_float_scaled_bounds _ _ (fun r hr => by cases hr; exact hfrac)
    · intro hfrac
      rw [hprice]
      exact safe_get_float_scaled_bounds _ _ hfrac
    · intro hfrac
      rw [hshare]
      exact safe_get_float_scaled_bounds _ _ hfrac
    · intro hfrac c hc
      rw [hgeo] at hc
      simp only [List.mem_filterMap] at hc
      obtain ⟨i, hi, hif⟩ := hc
      simp only [List.mem_cons, List.mem_singleton] at hi
      rcases hi with rfl | rfl | rfl | hfalse
      · split at hif
        · obtain rfl := Option.some_inj.mp hif
          exact safe_get_float_scaled_bounds _ _ (fun r hr => (hfrac r hr).1)
        · exact absurd hif (by simp)
      · split at hif
        · obtain rfl := Option.some_inj.mp hif
          exact safe_get_float_scaled_bounds _ _ (fun r hr => (hfrac r hr).2.1)
        · exact absurd hif (by simp)
      · split at hif
        · obtain rfl := Option.some_inj.mp hif
          exact safe_get_float_scaled_bounds _ _ (fun r hr => (hfrac r hr).2.2)
        · exact absurd hif (by simp)
      · simp at hfalse

/-- A populated trend row and market row with fractional percentage values. -/
def c5_trend_row : Row :=
  [("EVENT_ID", .str "E2"), ("PRICE_APPRECIATION_PCT", .num (1/5)),
   ("TOP_BUYER_COUNTRY_1", .str "JP"), ("TOP_BUYER_COUNTRY_1_PCT", .num (3/10))]

/-- A market row with both market-share fractions populated. -/
def c5_market_row : Row :=
  [("EVENT_ID", .str "E2"), ("LAST_7D_MARKET_SHARE_PCT", .num (1/50)),
   ("YTD_MARKET_SHARE_PCT", .num (3/100))]

/-- Witness for C5 at concrete rows. -/
theorem c5_percentage_scaling_witness :
    (structure_event_row c3_good_row none (some c5_trend_row) (some c5_market_row)).map
        GenEvent.internationalPct = .ok ((1 : ℚ)/4 * 100) ∧
    (extract_trend_insights (some c5_trend_row)).map TrendIns.priceAppreciationPct
      = some ((1 : ℚ)/5 * 100) ∧
    (extract_market_position (some c5_market_row)).map MarketPos.last7dMarketSharePct
      = some ((1 : ℚ)/50 * 100) ∧
    (extract_market_position (some c5_market_row)).map MarketPos.ytdMarketSharePct
      = some ((3 : ℚ)/100 * 100) :=
  ⟨c5_percentage_scaling.1 c3_good_row none (some c5_trend_row) (some c5_market_row)
      ((1 : ℚ)/4) rfl rfl,
   c5_percentage_scaling.2.1 c5_trend_row ((1 : ℚ)/5) rfl,
   c5_percentage_scaling.2.2.1 c5_market_row ((1 : ℚ)/50) rfl,
   c5_percentage_scaling.2.2.2.1 c5_market_row ((3 : ℚ)/100) rfl⟩

/-!
## Claim theorems: dual-content parsing (C7)
-/

lemma string_append_empty (a : String) : a ++ "" = a :=
  String.toList_inj.mp (by simp [String.toList, String.data_append])

lemma string_empty_append (a : String) : "" ++ a = a :=
  String.toList_inj.mp (by simp [String.toList, String.data_append])

lemma string_append_assoc (a b c : String) : a ++ b ++ c = a ++ (b ++ c) :=
  String.toList_inj.mp (by simp [String.toList, String.data_append])

lemma string_append_space_ne (a : String) : a ++ " " ≠ "" := by
  intro h
  have h2 : (a ++ " ").toList = "".toList := String.toList_inj.mpr h
  rw [String.toList, String.toList, String.data_append] at h2
  simp at h2

/-- The space-joined accumulation the parser performs for each segment. -/
def join_sp (l : List String) : String :=
  l.foldl (fun a s => a ++ s ++ " ") ""

lemma join_sp_acc (l : List String) :
    ∀ x : String, l.foldl (fun a s => a ++ s ++ " ") x = x ++ join_sp l := by
  induction l with
  | nil => intro x; exact (string_append_empty x).symm
  | cons s t ih =>
    intro x
    show t.foldl _ (x ++ s ++ " ") = x ++ join_sp (s :: t)
    rw [ih (x ++ s ++ " ")]
    show _ = x ++ t.foldl _ ("" ++ s ++ " ")
    rw [ih ("" ++ s ++ " "), string_empty_append, ← string_append_assoc,
      ← string_append_assoc]

lemma join_sp_cons (s : String) (t : List String) :
    join_sp (s :: t) = s ++ " " ++ join_sp t := by
  show List.foldl _ ("" ++ s ++ " ") t = _
  rw [join_sp_acc, string_empty_append]

/-- Spec-side assignment of lines to segments ("an explicit small state
machine with two states", §9): the optional fallback visual line, the lines
following a visual header, and the caption lines.  The Boolean state records
whether a fallback visual line has already been taken. -/
structure Assignment where
  fallbackVisual : String
  visualLines : List String
  captionLines : List String
deriving DecidableEq, Repr

/-- Which segment each line of the response belongs to, per the spec's
description: a recognised header line switches the current segment and is
itself dropped; other lines join the current segment; before any header, the
first line shorter than 100 characters becomes the fallback visual text and
all other lines join the caption. -/
def assign_dual_lines : List String → ParseSection → Bool → Assignment
  | [], _, _ => ⟨"", [], []⟩
  | l :: ls, sec, taken =>
    let line := py_strip l
    if line = "" then assign_dual_lines ls sec taken
    else if is_visual_header line then assign_dual_lines ls .visual taken
    else if is_caption_header line then assign_dual_lines ls .caption taken
    else
      match sec with
      | .visual =>
        let r := assign_dual_lines ls .visual taken
        { r with visualLines := line :: r.visualLines }
      | .caption =>
        let r := assign_dual_lines ls .caption taken
        { r with captionLines := line :: r.captionLines }
      | .none =>
        if taken = false ∧ line.length < 100 then
          let r := assign_dual_lines ls .none true
          { r with fallbackVisual := line }
        else
          let r := assign_dual_lines ls .none taken
          { r with captionLines := line :: r.captionLines }

/-- Once a fallback line has been taken — or the machine has left the
pre-header state — no further fallback line is recorded. -/
lemma assign_fb_empty (ls : List String) :
    ∀ (sec : ParseSection) (taken : Bool), sec ≠ ParseSection.none ∨ taken = true →
      (assign_dual_lines ls sec taken).fallbackVisual = "" := by
  induction ls with
  | nil => intro sec taken _; rfl
  | cons l t ih =>
    intro sec taken hst
    simp only [assign_dual_lines]
    by_cases h1 : py_strip l = ""
    · simp only [if_pos h1]
      exact ih sec taken hst
    · simp only [if_neg h1]
      by_cases h2 : is_visual_header (py_strip l) = true
      · simp only [if_pos h2]
        exact ih .visual taken (Or.inl (by simp))
      · simp only [if_neg h2]
        by_cases h3 : is_caption_header (py_strip l) = true
        · simp only [if_pos h3]
          exact ih .caption taken (Or.inl (by simp))
        · simp only [if_neg h3]
          cases sec with
          | visual => exact ih .visual taken (Or.inl (by simp))
          | caption => exact ih .caption taken (Or.inl (by simp))
          | none =>
            rcases hst with hst | hst
            · exact absurd rfl hst
            · simp only [if_neg (show ¬(taken = false ∧ (py_strip l).length < 100) from
                fun hc => by simp [hst] at hc)]
              exact ih .none taken (Or.inr hst)

/-- The parser's accumulated strings are exactly the joins of the assigned
line segments. -/
lemma parse_dual_lines_assign (ls : List String) :
    ∀ (sec : ParseSection) (v c : String) (taken : Bool),
      (sec = ParseSection.none → (taken = false ↔ v = "")) →
      parse_dual_lines ls sec v c =
        (py_strip (v ++ (assign_dual_lines ls sec taken).fallbackVisual ++
            join_sp (assign_dual_lines ls sec taken).visualLines),
         py_strip (c ++ join_sp (assign_dual_lines ls sec taken).captionLines)) := by
  induction ls with
  | nil =>
    intro sec v c taken _
    simp [parse_dual_lines, assign_dual_lines, join_sp, string_append_empty]
  | cons l t ih =>
    intro sec v c taken hrel
    simp only [parse_dual_lines, assign_dual_lines]
    by_cases h1 : py_strip l = ""
    · simp only [if_pos h1]
      exact ih sec v c taken hrel
    · simp only [if_neg h1]
      by_cases h2 : is_visual_header (py_strip l) = true
      · simp only [if_pos h2]
        exact ih .visual v c taken (by simp)
      · simp only [if_neg h2]
        by_cases h3 : is_caption_header (py_strip l) = true
        · simp only [if_pos h3]
          exact ih .caption v c taken (by simp)
        · simp only [if_neg h3]
          cases sec with
          | visual =>
            rw [ih .visual (v ++ py_strip l ++ " ") c taken (by simp)]
            rw [assign_fb_empty t .visual taken (Or.inl (by simp))]
            simp [string_append_empty, join_sp_cons, string_append_assoc]
          | caption =>
            rw [ih .caption v (c ++ py_strip l ++ " ") taken (by simp)]
            rw [assign_fb_empty t .caption taken (Or.inl (by simp))]
            simp [string_append_empty, join_sp_cons, string_append_assoc]
          | none =>
            have hrel' := hrel rfl
            by_cases hshort : (py_strip l).length < 100
            · by_cases hv : v = ""
              · have htaken : taken = false := hrel'.mpr hv
                simp only [if_pos (show v = "" ∧ (py_strip l).length < 100 from ⟨hv, hshort⟩),
                  if_pos (show taken = false ∧ (py_strip l).length < 100 from ⟨htaken, hshort⟩)]
                rw [ih .none (py_strip l) c true (fun _ => by simp [h1])]
                rw [assign_fb_empty t .none true (Or.inr rfl), hv]
                simp [string_append_empty, string_empty_append, string_append_assoc]
              · have htaken : taken = true := by
                  cases taken with
                  | false => exact absurd (hrel'.mp rfl) hv
                  | true => rfl
                simp only [if_neg (show ¬(v = "" ∧ (py_strip l).length < 100) from
                    fun hc => hv hc.1),
                  if_neg (show ¬(taken = false ∧ (py_strip l).length < 100) from
                    fun hc => by simp [htaken] at hc)]
                rw [ih .none v (c ++ py_strip l ++ " ") taken (fun _ => hrel')]
                simp [join_sp_cons, string_append_assoc]
            · simp only [if_neg (show ¬(v = "" ∧ (py_strip l).length < 100) from
                  fun hc => hshort hc.2),
                if_neg (show ¬(taken = false ∧ (py_strip l).length < 100) from
                  fun hc => hshort hc.2)]
              rw [ih .none v (c ++ py_strip l ++ " ") taken (fun _ => hrel')]
              simp [join_sp_cons, string_append_assoc]

/-- No line of the response contains a recognised section header. -/
def no_header_lines (ls : List String) : Bool :=
  ls.all (fun l => !(is_visual_header (py_strip l) || is_caption_header (py_strip l)))

/-- The spec's fallback: the first line shorter than 100 characters becomes
the visual text (`""` when there is none) and all other lines, in order, form
the caption. -/
def fallback_split : List String → String × List String
  | [] => ("", [])
  | l :: ls =>
      if l.length < 100 then (l, ls)
      else
        let r := fallback_split ls
        (r.1, l :: r.2)

lemma assign_no_header_taken (ls : List String) (h : no_header_lines ls = true) :
    assign_dual_lines ls .none true =
      ⟨"", [], (ls.map py_strip).filter (fun l => l ≠ "")⟩ := by
  induction ls with
  | nil => rfl
  | cons l t ih =>
    simp only [no_header_lines, List.all_cons, Bool.and_eq_true, Bool.not_eq_true',
      Bool.or_eq_false_iff] at h
    obtain ⟨⟨hv, hc⟩, ht⟩ := h
    have iht := ih (by simpa [no_header_lines] using ht)
    simp only [assign_dual_lines]
    by_cases h1 : py_strip l = ""
    · simp only [if_pos h1]
      rw [iht]
      simp [List.filter, h1]
    · simp only [if_neg h1,
        if_neg (show ¬is_visual_header (py_strip l) = true by simp [hv]),
        if_neg (show ¬is_caption_header (py_strip l) = true by simp [hc]),
        if_neg (show ¬((true : Bool) = false ∧ (py_strip l).length < 100) from
          fun hc2 => by simp at hc2)]
      rw [iht]
      simp [List.filter, h1]

lemma assign_no_header (ls : List String) (h : no_header_lines ls = true) :
    assign_dual_lines ls .none false =
      ⟨(fallback_split ((ls.map py_strip).filter (fun l => l ≠ ""))).1, [],
        (fallback_split ((ls.map py_strip).filter (fun l => l ≠ ""))).2⟩ := by
  induction ls with
  | nil => rfl
  | cons l t ih =>
    simp only [no_header_lines, List.all_cons, Bool.and_eq_true, Bool.not_eq_true',
      Bool.or_eq_false_iff] at h
    obtain ⟨⟨hv, hc⟩, ht⟩ := h
    have htall : no_header_lines t = true := by simpa [no_header_lines] using ht
    simp only [assign_dual_lines]
    by_cases h1 : py_strip l = ""
    · simp only [if_pos h1]
      rw [ih htall]
      simp [List.filter, h1]
    · simp only [if_neg h1,
        if_neg (show ¬is_visual_header (py_strip l) = true by simp [hv]),
        if_neg (show ¬is_caption_header (py_strip l) = true by simp [hc])]
      by_cases hshort : (py_strip l).length < 100
      · simp only [if_pos (show True ∧ (py_strip l).length < 100 from ⟨trivial, hshort⟩)]
        rw [assign_no_header_taken t htall]
        simp [List.filter, h1, fallback_split, hshort]
      · simp only [if_neg (show ¬(True ∧ (py_strip l).length < 100) from
          fun hcond => hshort hcond.2)]
        rw [ih htall]
        simp [List.filter, h1, fallback_split, hshort]

/-- Claim C7: `_parse_dual_content` assigns lines following a recognised
visual-text header to the visual segment and lines following a recognised
caption header to the caption segment (joined with spaces, outputs trimmed);
and on a response with no recognised header, the first line shorter than 100
characters becomes the visual text while all other lines are joined into the
caption. -/
theorem c7_dual_content_parsing :
    (∀ (content platform : String),
      parse_dual_content content platform =
        { visualText := py_strip
            ((assign_dual_lines (py_split (py_strip content) '\n') .none false).fallbackVisual ++
              join_sp (assign_dual_lines (py_split (py_strip content) '\n') .none false).visualLines)
          caption := py_strip
            (join_sp (assign_dual_lines (py_split (py_strip content) '\n') .none false).captionLines)
          platform := platform
          error := false }) ∧
    (∀ ls : List String, no_header_lines ls = true →
      assign_dual_lines ls ParseSection.none false =
        ⟨(fallback_split ((ls.map py_strip).filter (fun l => l ≠ ""))).1, [],
          (fallback_split ((ls.map py_strip).filter (fun l => l ≠ ""))).2⟩) := by
  constructor
  · intro content platform
    unfold parse_dual_content
    simp only []
    rw [parse_dual_lines_assign (py_split (py_strip content) '\n') .none "" "" false
      (fun _ => by simp)]
    rw [string_empty_append, string_empty_append]
  · exact assign_no_header

/-- Witness for C7: a header-free response whose first line is short. -/
theorem c7_dual_content_parsing_witness :
    no_header_lines ["Short headline", "and then a much longer explanation follows"] = true ∧
    assign_dual_lines ["Short headline", "and then a much longer explanation follows"]
        ParseSection.none false =
      ⟨"Short headline", [], ["and then a much longer explanation follows"]⟩ := by
  refine ⟨by decide, ?_⟩
  rw [c7_dual_content_parsing.2 _ (by decide)]
  decide

end SCE
